import Mathlib

/-!
# Payroll server (`src/Server.js`): batch employee ingestion and payroll derivation

A shallow embedding of the request handlers of `Server.js` and of the helper
`calcularDatosNomina`, followed by theorems about them.

* JavaScript values that can reach the handlers through `express.json()` are
  embedded as `JsVal`; numbers are exact rationals.  Strings that the program cuts
  by position are taken as sequences of UTF-16 code units (`Utf16`).
* The connection pool (`pool.query`) is embedded as a record of state-passing
  functions over an arbitrary state type, so a theorem quantified over `Entorno σ`
  covers every behaviour of the store.
* Builtins of the JavaScript runtime whose full definition lives in the language
  standard (`Number` on strings, `String.prototype.toUpperCase`, the local time
  zone) are fields of `Runtime`.
-/

namespace Server

/-! ## JavaScript values -/

/-- A JavaScript value as produced by `JSON.parse`, plus `undefined` for a property
that is not there.  Objects and arrays are kept only through the string their
conversion to a primitive yields (`"[object Object]"`, or the joined elements).  An
object whose conversion to a primitive throws (the JSON object with a `toString`
property that is not a function) is represented where the batch handler converts a
property to a string outside its inner `try`: see `Registro.nombreSinTexto` and
`Registro.idSinTexto`. -/
inductive JsVal where
  | undefined
  | null
  | bool (b : Bool)
  | num (q : ℚ)
  | str (s : String)
  | compound (toStr : String)
  deriving DecidableEq, Repr

/-- Truthiness, as tested by `!x`, `x || y` and `x ? a : b`. -/
def JsVal.truthy : JsVal → Bool
  | .undefined => false
  | .null => false
  | .bool b => b
  | .num q => decide (q ≠ 0)
  | .str s => decide (s ≠ "")
  | .compound _ => true

/-- The operator `a || b` on values. -/
def JsVal.or (a b : JsVal) : JsVal := if a.truthy then a else b

/-- A JavaScript string as its sequence of UTF-16 code units. -/
abbrev Utf16 := List Nat

/-- The UTF-16 code units of one character: itself in the Basic Multilingual Plane, a
surrogate pair above it. -/
def utf16DeChar (c : Char) : Utf16 :=
  if c.toNat < 65536 then [c.toNat]
  else [55296 + (c.toNat - 65536) / 1024, 56320 + (c.toNat - 65536) % 1024]

/-- The UTF-16 code units of a string. -/
def utf16 (s : String) : Utf16 := s.data.flatMap utf16DeChar

/-- Builtins of the runtime that the program calls and does not define. -/
structure Runtime where
  /-- `Number(s)` for a string `s`; `none` stands for `NaN`. -/
  stringToNumber : String → Option ℚ
  /-- `String.prototype.toUpperCase`. -/
  toUpperCase : Utf16 → Utf16
  /-- Offset of the local time zone, in minutes east of UTC. -/
  desfaseZona : Int
  /-- Conversion of a value to a string inside a template literal. -/
  aTexto : JsVal → String

/-- `Number(v)`; `none` stands for `NaN`. -/
def Runtime.number (rt : Runtime) : JsVal → Option ℚ
  | .undefined => none
  | .null => some 0
  | .bool b => some (if b then 1 else 0)
  | .num q => some q
  | .str s => rt.stringToNumber s
  | .compound s => rt.stringToNumber s

/-- The operator `x || d` where `x` is a number or `NaN` and `d` a number. -/
def numOr (x : Option ℚ) (d : ℚ) : ℚ :=
  match x with
  | some q => if q = 0 then d else q
  | none => d

/-- `Math.round`: the nearest integer, a tie going towards plus infinity. -/
def mathRound (x : ℚ) : ℤ := ⌊x + 1 / 2⌋

/-- `hay.includes(needle)` on character lists. -/
def incluye (needle : List Char) : List Char → Bool
  | [] => needle.isEmpty
  | c :: cs => needle.isPrefixOf (c :: cs) || incluye needle cs

/-- `s.includes(needle)`. -/
def includes (s needle : String) : Bool := incluye needle.data s.data

/-- `s.substring(0, n)`: the first `n` UTF-16 code units of `s`. -/
def substring0 (s : String) (n : Nat) : Utf16 := (utf16 s).take n

/-! ## Calendar arithmetic behind `Date` -/

/-- Milliseconds in a day. -/
def msPorDia : Int := 86400000

/-- Day number (days since 1970-01-01) of the civil date `y`-`m`-`d`, `m` in 1..12. -/
def diasDeCivil (y : Int) (m : Int) (d : Int) : Int :=
  let y1 := if m ≤ 2 then y - 1 else y
  let era := y1 / 400
  let yoe := y1 - era * 400
  let mp := if m > 2 then m - 3 else m + 9
  let doy := (153 * mp + 2) / 5 + d - 1
  let doe := yoe * 365 + yoe / 4 - yoe / 100 + doy
  era * 146097 + doe - 719468

/-- Civil date `(year, month 1..12, day)` of a day number. -/
def civilDeDias (z0 : Int) : Int × Int × Int :=
  let z := z0 + 719468
  let era := z / 146097
  let doe := z - era * 146097
  let yoe := (doe - doe / 1460 + doe / 36524 - doe / 146096) / 365
  let doy := doe - (365 * yoe + yoe / 4 - yoe / 100)
  let mp := (5 * doy + 2) / 153
  let d := doy - (153 * mp + 2) / 5 + 1
  let m := if mp < 10 then mp + 3 else mp - 9
  (if m ≤ 2 then yoe + era * 400 + 1 else yoe + era * 400, m, d)

/-- Local time of the instant `t` (milliseconds since the epoch). -/
def Runtime.localTime (rt : Runtime) (t : Int) : Int := t + rt.desfaseZona * 60000

/-- `getFullYear()` of the instant `t`. -/
def Runtime.getFullYear (rt : Runtime) (t : Int) : Int :=
  (civilDeDias (rt.localTime t / msPorDia)).1

/-- `getMonth()` of the instant `t`, in 0..11. -/
def Runtime.getMonth (rt : Runtime) (t : Int) : Int :=
  (civilDeDias (rt.localTime t / msPorDia)).2.1 - 1

/-- `new Date(year, month, date)`: midnight local time of that day, as an instant.
The month may overflow and the date may be 0 (the day before the first). -/
def Runtime.newDate (rt : Runtime) (year month date : Int) : Int :=
  let year := if 0 ≤ year ∧ year ≤ 99 then 1900 + year else year
  let ym := year + month / 12
  let mn := month % 12
  (diasDeCivil ym (mn + 1) 1 + date - 1) * msPorDia - rt.desfaseZona * 60000

/-- The last `ancho` decimal digits of `n`, zero padded. -/
def pad : Nat → Nat → List Char
  | 0, _ => []
  | ancho + 1, n => pad ancho (n / 10) ++ [Char.ofNat (48 + n % 10)]

/-- `toISOString().split('T')[0]`: the UTC calendar date of the instant `t`. -/
def isoFecha (t : Int) : String :=
  let c := civilDeDias (t / msPorDia)
  let anio : List Char :=
    if 0 ≤ c.1 ∧ c.1 ≤ 9999 then pad 4 c.1.toNat
    else (if c.1 < 0 then '-' else '+') :: pad 6 c.1.natAbs
  ⟨anio ++ '-' :: pad 2 c.2.1.toNat ++ '-' :: pad 2 c.2.2.toNat⟩

/-! ## Employee items -/

/-- The properties of an employee object that the program reads. -/
structure Registro where
  nombre : JsVal := .undefined
  IdEmpleado : JsVal := .undefined
  rfc : JsVal := .undefined
  nss : JsVal := .undefined
  puesto : JsVal := .undefined
  fechaIngreso : JsVal := .undefined
  sueldo : JsVal := .undefined
  horas : JsVal := .undefined
  /-- Whether `nombre` is an object whose conversion to a string throws; `nombre` is
  then a `compound`, the string of which is not used. -/
  nombreSinTexto : Bool := false
  /-- Whether `IdEmpleado` is an object whose conversion to a string throws. -/
  idSinTexto : Bool := false
  deriving DecidableEq, Repr

/-- An element of the `employees` array.  `nul` is JSON `null`; `prim` is a boolean,
number or string element, every property of which reads as `undefined`; `obj` is an
object (or array). -/
inductive Item where
  | nul
  | prim
  | obj (r : Registro)
  deriving DecidableEq, Repr

/-- Property read `emp.f`; reading a property of `null` throws a `TypeError`. -/
def Item.leer (emp : Item) (campo : String) (f : Registro → JsVal) : Except String JsVal :=
  match emp with
  | .nul => .error ("Cannot read properties of null (reading '" ++ campo ++ "')")
  | .prim => .ok (f {})
  | .obj r => .ok (f r)

/-- Property write `emp.IdEmpleado = v`.  The file is not in strict mode, so the write
on a primitive is dropped silently. -/
def Item.asignarIdEmpleado (emp : Item) (v : JsVal) : Item :=
  match emp with
  | .nul => .nul
  | .prim => .prim
  | .obj r => .obj { r with IdEmpleado := v, idSinTexto := false }

/-- The conversion `${emp.f}` inside a template literal, for its effect only: it
throws a `TypeError` on `null` and on an object without a string conversion. -/
def Item.enPlantilla (emp : Item) (campo : String) (sinTexto : Registro → Bool) :
    Except String Unit :=
  match emp with
  | .nul => .error ("Cannot read properties of null (reading '" ++ campo ++ "')")
  | .prim => if sinTexto {} then .error "Cannot convert object to primitive value" else .ok ()
  | .obj r => if sinTexto r then .error "Cannot convert object to primitive value" else .ok ()

/-- The properties visible on an item: none on `null`, all `undefined` on a primitive. -/
def Item.campos : Item → Option Registro
  | .nul => none
  | .prim => some {}
  | .obj r => some r

/-! ## `calcularDatosNomina` -/

/-- The object returned by `calcularDatosNomina`. -/
structure DatosNomina where
  IdDepartamento : Utf16
  Supervisor : String
  Dias_Trabajados : ℚ
  TotalPercepciones : ℚ
  TotalDeducciones : ℚ
  TotalNetoPagado : ℚ
  fechaInicioPeriodo : String
  fechaFinPeriodo : String
  deriving DecidableEq, Repr

/-- `Dias_Trabajados` from the value of `emp.horas`. -/
def diasTrabajados (rt : Runtime) (horasVal : JsVal) : ℚ :=
  let horas := numOr (rt.number horasVal) 160
  if horas > 0 then (mathRound ((horas / 8) * 100) : ℚ) / 100 else 20

/-- `Supervisor` from the string `puesto`. -/
def supervisor (puesto : String) : String :=
  if includes puesto "Jr" || includes puesto "Junior" then "Supervisor de Desarrollo"
  else if includes puesto "Senior" || includes puesto "Sr" then "Gerente de Área"
  else "Supervisor General"

/-- `calcularDatosNomina(emp)`, evaluated at the instant `hoy` (`new Date()`).
An exception is returned as `.error` with its message. -/
def calcularDatosNomina (rt : Runtime) (hoy : Int) (emp : Item) : Except String DatosNomina := do
  let sueldoVal ← emp.leer "sueldo" (·.sueldo)
  let sueldoBruto := numOr (rt.number sueldoVal) 0
  let horasVal ← emp.leer "horas" (·.horas)
  let dias := diasTrabajados rt horasVal
  let isr := sueldoBruto * (25 / 100)
  let imss := sueldoBruto * (13 / 100)
  let totalDeducciones := isr + imss
  let totalNetoPagado := sueldoBruto - totalDeducciones
  let puestoVal ← emp.leer "puesto" (·.puesto)
  match puestoVal.or (.str "General") with
  | .str puesto =>
    let idDepartamento := utf16 "DEP-" ++ rt.toUpperCase (substring0 puesto 3)
    let fechaInicioPeriodo := rt.newDate (rt.getFullYear hoy) (rt.getMonth hoy) 1
    let fechaFinPeriodo := rt.newDate (rt.getFullYear hoy) (rt.getMonth hoy + 1) 0
    pure {
      IdDepartamento := idDepartamento
      Supervisor := supervisor puesto
      Dias_Trabajados := dias
      TotalPercepciones := sueldoBruto
      TotalDeducciones := totalDeducciones
      TotalNetoPagado := totalNetoPagado
      fechaInicioPeriodo := isoFecha fechaInicioPeriodo
      fechaFinPeriodo := isoFecha fechaFinPeriodo }
  | _ => .error "puesto.substring is not a function"

/-- A runtime for evaluating examples, faithful on the inputs the examples use: the
empty string converts to 0, a string of decimal digits to its number and any other
string to `NaN`; ASCII letters are upper-cased and other code units kept; integers are
written in decimal (other numbers are not written faithfully); the zone is `desfase`
minutes east of UTC. -/
def runtimeAscii (desfase : Int) : Runtime where
  stringToNumber s :=
    if s.data = [] then some 0
    else if s.data.all Char.isDigit then
      some (s.data.foldl (fun n c => 10 * n + (c.toNat - 48)) 0 : Nat)
    else none
  toUpperCase s := s.map (fun u => if 97 ≤ u ∧ u ≤ 122 then u - 32 else u)
  desfaseZona := desfase
  aTexto v :=
    match v with
    | .str t => t
    | .compound t => t
    | .undefined => "undefined"
    | .null => "null"
    | .bool b => if b then "true" else "false"
    | .num q => (if q.num < 0 then "-" else "") ++ Nat.repr q.num.natAbs

/-! ## The store and the ambient sources -/

/-- Everything the handlers reach outside themselves, over an arbitrary state `σ`:
the four statements sent through `pool.query`, the clock, and the source of generated
identifiers (`Date.now()` with `Math.random()`).  A query either throws (`.error` with
the message) or returns; either way it may change the state. -/
structure Entorno (σ : Type) where
  /-- `INSERT INTO empleados ... ON DUPLICATE KEY UPDATE ...`; returns `result.insertId`
  (0 when the packet carries none). -/
  upsertEmpleado : List JsVal → σ → Except String Nat × σ
  /-- `SELECT id FROM empleados WHERE IdEmpleado = ?`; returns the `id` of each row. -/
  selectId : JsVal → σ → Except String (List Nat) × σ
  /-- `INSERT INTO Nominas` of the batch handler (ten parameters). -/
  insertNomina : Nat → JsVal → DatosNomina → σ → Except String Unit × σ
  /-- `INSERT INTO Nominas` of `POST /api/nominas` (eight parameters). -/
  insertNominaManual : Nat → List JsVal → σ → Except String Unit × σ
  /-- The generated identifier `EMP-<Date.now()>-<random suffix>`. -/
  generarId : σ → String × σ
  /-- The instant `new Date()` returns. -/
  ahora : σ → Int

/-- A statement sent to the store. -/
inductive Consulta where
  | upsertEmpleado (params : List JsVal)
  | selectId (idEmpleado : JsVal)
  | insertNomina (idInterno : Nat) (credencial : JsVal) (datos : DatosNomina)
  | insertNominaManual (idInterno : Nat) (params : List JsVal)
  deriving DecidableEq

/-- Whether a statement is an `INSERT INTO Nominas`. -/
def Consulta.esInsertNomina : Consulta → Bool
  | .insertNomina _ _ _ => true
  | .insertNominaManual _ _ => true
  | _ => false

/-- The same environment, recording every statement it is sent, in order. -/
def Entorno.conRegistro {σ : Type} (env : Entorno σ) : Entorno (σ × List Consulta) where
  upsertEmpleado params s :=
    ((env.upsertEmpleado params s.1).1,
      ((env.upsertEmpleado params s.1).2, s.2 ++ [.upsertEmpleado params]))
  selectId v s :=
    ((env.selectId v s.1).1, ((env.selectId v s.1).2, s.2 ++ [.selectId v]))
  insertNomina i c d s :=
    ((env.insertNomina i c d s.1).1,
      ((env.insertNomina i c d s.1).2, s.2 ++ [.insertNomina i c d]))
  insertNominaManual i ps s :=
    ((env.insertNominaManual i ps s.1).1,
      ((env.insertNominaManual i ps s.1).2, s.2 ++ [.insertNominaManual i ps]))
  generarId s := ((env.generarId s.1).1, ((env.generarId s.1).2, s.2))
  ahora s := env.ahora s.1

/-! ## `POST /api/employees` -/

/-- The four accumulators of the batch loop. -/
structure Contadores where
  procesados : Nat := 0
  nominasCreadas : Nat := 0
  omitidos : Nat := 0
  errores : List (JsVal × String) := []
  deriving DecidableEq

/-- An HTTP response. -/
inductive Respuesta where
  /-- Status 200 with the batch summary; `errores` is `none` for `undefined`. -/
  | resumen (procesados nominasCreadas omitidos : Nat) (errores : Option (List (JsVal × String)))
  /-- Status 200 with a bare `message`. -/
  | mensaje (message : String)
  /-- An error status with `error` and, for 500, `details`. -/
  | error (status : Nat) (error : String) (details : Option String)
  deriving DecidableEq

/-- The parameter array of the employee upsert. -/
def parametrosEmpleado (emp : Item) : Except String (List JsVal) := do
  let nombre ← emp.leer "nombre" (·.nombre)
  let idEmpleado ← emp.leer "IdEmpleado" (·.IdEmpleado)
  let rfc ← emp.leer "rfc" (·.rfc)
  let nss ← emp.leer "nss" (·.nss)
  let puesto ← emp.leer "puesto" (·.puesto)
  let fechaIngreso ← emp.leer "fechaIngreso" (·.fechaIngreso)
  let sueldo ← emp.leer "sueldo" (·.sueldo)
  let horas ← emp.leer "horas" (·.horas)
  pure [nombre.or .null, idEmpleado, rfc.or .null, nss.or .null, puesto.or .null,
    fechaIngreso.or .null, sueldo.or (.num 0), horas.or (.num 0)]

/-- Lines 228-232: an item without a truthy `IdEmpleado` gets a generated one, and the
log line of 231 converts `emp.IdEmpleado` and `emp.nombre` to strings.  This runs
before the item's `try` block; an exception comes with the state it leaves. -/
def prepararItem {σ : Type} (env : Entorno σ) (emp : Item) (s : σ) :
    Except (String × σ) (Item × σ) :=
  match emp.leer "IdEmpleado" (·.IdEmpleado) with
  | .error e => .error (e, s)
  | .ok idEmpleado =>
    if !idEmpleado.truthy then
      let emp1 := emp.asignarIdEmpleado (.str (env.generarId s).1)
      match emp1.enPlantilla "IdEmpleado" (·.idSinTexto) with
      | .error e => .error (e, (env.generarId s).2)
      | .ok _ =>
        match emp1.enPlantilla "nombre" (·.nombreSinTexto) with
        | .error e => .error (e, (env.generarId s).2)
        | .ok _ => .ok (emp1, (env.generarId s).2)
    else
      .ok (emp, s)

/-- Lines 268-289, the inner `try`/`catch`: compute the payroll data and insert the
row; any exception is logged and dropped. -/
def crearNomina {σ : Type} (rt : Runtime) (env : Entorno σ) (emp : Item)
    (idInternoEmpleado : Nat) (acc : Contadores) (s : σ) : Contadores × σ :=
  match calcularDatosNomina rt (env.ahora s) emp with
  | .error _ => (acc, s)
  | .ok datosNomina =>
    match emp.leer "IdEmpleado" (·.IdEmpleado) with
    | .error _ => (acc, s)
    | .ok credencial =>
      match env.insertNomina idInternoEmpleado credencial datosNomina s with
      | (.error _, s1) => (acc, s1)
      | (.ok _, s1) => ({ acc with nominasCreadas := acc.nominasCreadas + 1 }, s1)

/-- Lines 234-290, the body of the item's outer `try`: the first component is the
message of the exception that reaches the `catch`, if any.  The log lines 253, 261, 285
and 287 are left out: they convert `emp.IdEmpleado` and `emp.nombre`, and they throw
only on an object without a string conversion that the upsert, which has returned by
then, has taken as a parameter value; such a run is outside this embedding. -/
def guardarEmpleado {σ : Type} (rt : Runtime) (env : Entorno σ) (emp : Item)
    (acc : Contadores) (s : σ) : Option String × Contadores × σ :=
  match parametrosEmpleado emp with
  | .error e => (some e, acc, s)
  | .ok params =>
    match env.upsertEmpleado params s with
    | (.error e, s1) => (some e, acc, s1)
    | (.ok insertId, s1) =>
      if insertId ≠ 0 then
        let r := crearNomina rt env emp insertId { acc with procesados := acc.procesados + 1 } s1
        (none, r.1, r.2)
      else
        match emp.leer "IdEmpleado" (·.IdEmpleado) with
        | .error e => (some e, acc, s1)
        | .ok idEmpleado =>
          match env.selectId idEmpleado s1 with
          | (.error e, s2) => (some e, acc, s2)
          | (.ok (idInternoEmpleado :: _), s2) =>
            let r := crearNomina rt env emp idInternoEmpleado
              { acc with procesados := acc.procesados + 1 } s2
            (none, r.1, r.2)
          | (.ok [], s2) => (some "No se pudo obtener el ID interno del empleado", acc, s2)

/-- Lines 291-295, the item's `catch`: the counter, the entry of `errores`, and the
log line of 294, which converts `emp.IdEmpleado` to a string.  `.error` is an exception
thrown from inside the `catch`. -/
def registrarError (emp : Item) (acc : Contadores) (msg : String) : Except String Contadores := do
  let nombre ← emp.leer "nombre" (·.nombre)
  let idEmpleado ← emp.leer "IdEmpleado" (·.IdEmpleado)
  emp.enPlantilla "IdEmpleado" (·.idSinTexto)
  pure { acc with omitidos := acc.omitidos + 1,
                  errores := acc.errores ++ [(nombre.or idEmpleado, msg)] }

/-- One iteration of the loop of lines 226-296.  `.error` is an exception that leaves
the loop. -/
def procesarItem {σ : Type} (rt : Runtime) (env : Entorno σ) (acc : Contadores) (emp : Item)
    (s : σ) : Except String Contadores × σ :=
  match prepararItem env emp s with
  | .error (e, s1) => (.error e, s1)
  | .ok (emp1, s1) =>
    match guardarEmpleado rt env emp1 acc s1 with
    | (none, acc1, s2) => (.ok acc1, s2)
    | (some msg, acc1, s2) => (registrarError emp1 acc1 msg, s2)

/-- The loop `for (const emp of employees)`. -/
def bucle {σ : Type} (rt : Runtime) (env : Entorno σ) :
    List Item → Contadores → σ → Except String Contadores × σ
  | [], acc, s => (.ok acc, s)
  | emp :: resto, acc, s =>
    match procesarItem rt env acc emp s with
    | (.error e, s1) => (.error e, s1)
    | (.ok acc1, s1) => bucle rt env resto acc1 s1

/-- The handler of `POST /api/employees`.  `employees` is `none` when the body has no
`employees` property or it is not an array. -/
def postEmployees {σ : Type} (rt : Runtime) (env : Entorno σ) (employees : Option (List Item))
    (s : σ) : Respuesta × σ :=
  match employees with
  | none => (.error 400 "Se espera un array 'employees'" none, s)
  | some emps =>
    match bucle rt env emps {} s with
    | (.ok acc, s1) =>
      (.resumen acc.procesados acc.nominasCreadas acc.omitidos
        (if acc.errores.length > 0 then some acc.errores else none), s1)
    | (.error e, s1) => (.error 500 "Error al guardar empleados" (some e), s1)

/-! ## `POST /api/nominas` -/

/-- The properties read from the body of `POST /api/nominas`. -/
structure CuerpoNomina where
  IdEmpleado : JsVal := .undefined
  IdDepartamento : JsVal := .undefined
  Supervisor : JsVal := .undefined
  Dias_Trabajados : JsVal := .undefined
  TotalPercepciones : JsVal := .undefined
  TotalDeducciones : JsVal := .undefined
  TotalNetoPagado : JsVal := .undefined

/-- The handler of `POST /api/nominas`. -/
def postNominas {σ : Type} (rt : Runtime) (env : Entorno σ) (body : CuerpoNomina) (s : σ) :
    Respuesta × σ :=
  if !body.IdEmpleado.truthy then (.error 400 "IdEmpleado es requerido" none, s)
  else
    match env.selectId body.IdEmpleado s with
    | (.error e, s1) => (.error 500 "Error al guardar nómina" (some e), s1)
    | (.ok [], s1) =>
      (.error 404 ("El empleado con ID " ++ rt.aTexto body.IdEmpleado ++
        " no existe en la base de datos.") none, s1)
    | (.ok (idInterno :: _), s1) =>
      match env.insertNominaManual idInterno
          [body.IdEmpleado, body.IdDepartamento, body.Supervisor, body.Dias_Trabajados,
            body.TotalPercepciones, body.TotalDeducciones, body.TotalNetoPagado] s1 with
      | (.error e, s2) => (.error 500 "Error al guardar nómina" (some e), s2)
      | (.ok _, s2) => (.mensaje "Nómina guardada exitosamente", s2)

/-! ## Vocabulary of the claims about the batch -/

/-- The parameter array of the employee upsert, on the properties of a non-null item. -/
def parametrosRegistro (r : Registro) : List JsVal :=
  [r.nombre.or .null, r.IdEmpleado, r.rfc.or .null, r.nss.or .null, r.puesto.or .null,
    r.fechaIngreso.or .null, r.sueldo.or (.num 0), r.horas.or (.num 0)]

/-- The outcome of the employee save for an item with properties `r`, reached at state
`s`: the internal id is `insertId` when the upsert returns one, otherwise the `id` of
the first row of the follow-up lookup by `IdEmpleado`; the save fails (`none`) when the
upsert throws, or returns no `insertId` and the lookup throws or finds no row.  The
second component is the state the save leaves. -/
def idResuelto {σ : Type} (env : Entorno σ) (r : Registro) (s : σ) : Option Nat × σ :=
  match env.upsertEmpleado (parametrosRegistro r) s with
  | (.error _, s1) => (none, s1)
  | (.ok insertId, s1) =>
    if insertId ≠ 0 then (some insertId, s1)
    else
      match env.selectId r.IdEmpleado s1 with
      | (.ok (id :: _), s2) => (some id, s2)
      | (.ok [], s2) => (none, s2)
      | (.error _, s2) => (none, s2)

/-- Whether payroll generation succeeds for an item saved with internal id `id`:
`calcularDatosNomina` returns and the `Nominas` insert returns. -/
def nominaInsertada {σ : Type} (rt : Runtime) (env : Entorno σ) (emp : Item) (r : Registro)
    (id : Nat) (s : σ) : Bool :=
  match calcularDatosNomina rt (env.ahora s) emp with
  | .error _ => false
  | .ok d =>
    match (env.insertNomina id r.IdEmpleado d s).1 with
    | .error _ => false
    | .ok _ => true

/-- An item on which the string conversions of lines 231 and 294 cannot throw: it is not
`null`, and neither its `nombre` nor its `IdEmpleado` is an object without a string
conversion. -/
def Item.conTexto : Item → Bool
  | .nul => false
  | .prim => true
  | .obj r => !r.nombreSinTexto && !r.idSinTexto

/-- The number `M` of items of a batch whose employee save fails, each item being
tried at the state the items before it have left. -/
def guardadosFallidos {σ : Type} (rt : Runtime) (env : Entorno σ) : List Item → σ → Nat
  | [], _ => 0
  | emp :: resto, s =>
    (match prepararItem env emp s with
      | .ok (emp1, s1) =>
        match emp1.campos with
        | some r => if (idResuelto env r s1).1.isNone then 1 else 0
        | none => 0
      | .error _ => 0)
    + guardadosFallidos rt env resto (procesarItem rt env {} emp s).2

/-! ## A scripted store for concrete runs -/

/-- One canned answer of the scripted store. -/
inductive Paso where
  | insertId (n : Nat)
  | filas (ids : List Nat)
  | hecho
  | falla (msg : String)
  deriving DecidableEq

/-- A store that answers each statement with the next step of its script, whatever the
statement is; with the script exhausted every statement throws.  The clock stands at
`hoy` and every generated identifier is "EMP-1-abc". -/
def entornoGuion (hoy : Int) : Entorno (List Paso) where
  upsertEmpleado _ s :=
    match s with
    | .insertId n :: t => (.ok n, t)
    | .falla m :: t => (.error m, t)
    | _ :: t => (.ok 0, t)
    | [] => (.error "Pool is closed.", [])
  selectId _ s :=
    match s with
    | .filas ids :: t => (.ok ids, t)
    | .falla m :: t => (.error m, t)
    | _ :: t => (.ok [], t)
    | [] => (.error "Pool is closed.", [])
  insertNomina _ _ _ s :=
    match s with
    | .falla m :: t => (.error m, t)
    | _ :: t => (.ok (), t)
    | [] => (.error "Pool is closed.", [])
  insertNominaManual _ _ s :=
    match s with
    | .falla m :: t => (.error m, t)
    | _ :: t => (.ok (), t)
    | [] => (.error "Pool is closed.", [])
  generarId s := ("EMP-1-abc", s)
  ahora _ := hoy

/-- An example batch of three records. -/
def loteEjemplo : List Item :=
  [.obj { nombre := .str "Ana", sueldo := .num 10000 },
   .obj { nombre := .str "Luis", IdEmpleado := .str "E2" },
   .obj { nombre := .str "Eva", IdEmpleado := .str "E3" }]

/-- A script for `loteEjemplo`: the first item is inserted with its payroll row, the
upsert of the second throws, the third is updated and its lookup finds no row. -/
def guionEjemplo : List Paso :=
  [.insertId 1, .hecho, .falla "Data too long for column 'rfc'", .insertId 0, .filas []]

/-- The payroll data of the first record of `loteEjemplo`, computed at the epoch in
UTC. -/
def nominaEjemplo : DatosNomina where
  IdDepartamento := utf16 "DEP-GEN"
  Supervisor := "Supervisor General"
  Dias_Trabajados := 20
  TotalPercepciones := 10000
  TotalDeducciones := 3800
  TotalNetoPagado := 6200
  fechaInicioPeriodo := "1970-01-01"
  fechaFinPeriodo := "1970-01-31"

/-- The first record of `loteEjemplo` once it has its generated `IdEmpleado`. -/
def anaPreparada : Registro :=
  { nombre := .str "Ana", IdEmpleado := .str "EMP-1-abc", sueldo := .num 10000 }

/-! ## Basic facts about the embedding -/

theorem leer_of_campos {emp : Item} {r : Registro} (h : emp.campos = some r) (campo : String)
    (f : Registro → JsVal) : emp.leer campo f = .ok (f r) := by
  cases emp with
  | nul => simp [Item.campos] at h
  | prim =>
    simp only [Item.campos, Option.some.injEq] at h
    subst h
    rfl
  | obj r0 =>
    simp only [Item.campos, Option.some.injEq] at h
    subst h
    rfl

theorem campos_of_ne_nul {emp : Item} (h : emp ≠ .nul) : ∃ r, emp.campos = some r := by
  cases emp with
  | nul => exact absurd rfl h
  | prim => exact ⟨_, rfl⟩
  | obj r => exact ⟨r, rfl⟩

theorem incluye_iff (needle hay : List Char) : incluye needle hay = true ↔ needle <:+: hay := by
  induction hay with
  | nil => simp [incluye, List.isEmpty_iff]
  | cons c cs ih =>
    simp only [incluye, Bool.or_eq_true, ih, List.infix_cons_iff, List.isPrefixOf_iff_prefix]

/-- What `calcularDatosNomina` returns on an item whose `puesto`, after the default
`'General'`, is the string `p`. -/
theorem calcular_eq {rt : Runtime} {emp : Item} {r : Registro} {p : String} (hoy : Int)
    (hr : emp.campos = some r) (hp : r.puesto.or (.str "General") = .str p) :
    calcularDatosNomina rt hoy emp = .ok {
      IdDepartamento := utf16 "DEP-" ++ rt.toUpperCase (substring0 p 3)
      Supervisor := supervisor p
      Dias_Trabajados := diasTrabajados rt r.horas
      TotalPercepciones := numOr (rt.number r.sueldo) 0
      TotalDeducciones := numOr (rt.number r.sueldo) 0 * (25 / 100)
        + numOr (rt.number r.sueldo) 0 * (13 / 100)
      TotalNetoPagado := numOr (rt.number r.sueldo) 0
        - (numOr (rt.number r.sueldo) 0 * (25 / 100) + numOr (rt.number r.sueldo) 0 * (13 / 100))
      fechaInicioPeriodo := isoFecha (rt.newDate (rt.getFullYear hoy) (rt.getMonth hoy) 1)
      fechaFinPeriodo := isoFecha (rt.newDate (rt.getFullYear hoy) (rt.getMonth hoy + 1) 0) } := by
  simp only [calcularDatosNomina, leer_of_campos hr, bind, Except.bind, hp, pure, Except.pure]

theorem parametros_of_campos {emp : Item} {r : Registro} (h : emp.campos = some r) :
    parametrosEmpleado emp = .ok (parametrosRegistro r) := by
  simp only [parametrosEmpleado, leer_of_campos h, bind, Except.bind, pure, Except.pure,
    parametrosRegistro]

theorem crearNomina_fst {σ : Type} (rt : Runtime) (env : Entorno σ) {emp : Item} {r : Registro}
    (h : emp.campos = some r) (id : Nat) (acc : Contadores) (s : σ) :
    (crearNomina rt env emp id acc s).1 =
      { acc with nominasCreadas :=
          acc.nominasCreadas + (if nominaInsertada rt env emp r id s then 1 else 0) } := by
  rcases hc : calcularDatosNomina rt (env.ahora s) emp with e | d
  · simp [crearNomina, nominaInsertada, hc]
  · rcases hq : env.insertNomina id r.IdEmpleado d s with ⟨res, s1⟩
    cases res <;> simp [crearNomina, nominaInsertada, hc, hq, leer_of_campos h]

theorem crearNomina_snd {σ : Type} (rt : Runtime) (env : Entorno σ) (emp : Item)
    (id : Nat) (acc acc2 : Contadores) (s : σ) :
    (crearNomina rt env emp id acc s).2 = (crearNomina rt env emp id acc2 s).2 := by
  rcases hc : calcularDatosNomina rt (env.ahora s) emp with e | d
  · simp [crearNomina, hc]
  · rcases hl : emp.leer "IdEmpleado" (·.IdEmpleado) with e | c
    · simp [crearNomina, hc, hl]
    · rcases hq : env.insertNomina id c d s with ⟨res, s1⟩
      cases res <;> simp [crearNomina, hc, hl, hq]

theorem guardarEmpleado_some {σ : Type} (rt : Runtime) (env : Entorno σ) {emp : Item}
    {r : Registro} (h : emp.campos = some r) (acc : Contadores) (s : σ) {id : Nat}
    (hid : (idResuelto env r s).1 = some id) :
    guardarEmpleado rt env emp acc s =
      (none, crearNomina rt env emp id { acc with procesados := acc.procesados + 1 }
        (idResuelto env r s).2) := by
  rcases hu : env.upsertEmpleado (parametrosRegistro r) s with ⟨res, s1⟩
  cases res with
  | error e => simp [idResuelto, hu] at hid
  | ok insertId =>
    by_cases h0 : insertId = 0
    · rcases hs : env.selectId r.IdEmpleado s1 with ⟨res2, s2⟩
      cases res2 with
      | error e => simp [idResuelto, hu, h0, hs] at hid
      | ok rows =>
        cases rows with
        | nil => simp [idResuelto, hu, h0, hs] at hid
        | cons i t =>
          simp only [idResuelto, hu, h0, hs, ne_eq, not_true_eq_false, if_false,
            Option.some.injEq] at hid
          subst hid
          simp [guardarEmpleado, parametros_of_campos h, leer_of_campos h, idResuelto, hu, h0, hs]
    · simp only [idResuelto, hu, ne_eq, h0, not_false_eq_true, if_true, Option.some.injEq] at hid
      subst hid
      simp [guardarEmpleado, parametros_of_campos h, idResuelto, hu, h0]

theorem guardarEmpleado_none {σ : Type} (rt : Runtime) (env : Entorno σ) {emp : Item}
    {r : Registro} (h : emp.campos = some r) (acc : Contadores) (s : σ)
    (hid : (idResuelto env r s).1 = none) :
    ∃ msg, guardarEmpleado rt env emp acc s = (some msg, acc, (idResuelto env r s).2) := by
  rcases hu : env.upsertEmpleado (parametrosRegistro r) s with ⟨res, s1⟩
  cases res with
  | error e =>
    exact ⟨e, by simp [guardarEmpleado, parametros_of_campos h, idResuelto, hu]⟩
  | ok insertId =>
    by_cases h0 : insertId = 0
    · rcases hs : env.selectId r.IdEmpleado s1 with ⟨res2, s2⟩
      cases res2 with
      | error e =>
        exact ⟨e, by simp [guardarEmpleado, parametros_of_campos h, leer_of_campos h,
          idResuelto, hu, h0, hs]⟩
      | ok rows =>
        cases rows with
        | nil =>
          exact ⟨"No se pudo obtener el ID interno del empleado", by
            simp [guardarEmpleado, parametros_of_campos h, leer_of_campos h, idResuelto, hu,
              h0, hs]⟩
        | cons i t => simp [idResuelto, hu, h0, hs] at hid
    · simp [idResuelto, hu, h0] at hid

theorem campos_of_preparar {σ : Type} (env : Entorno σ) {emp emp1 : Item} {s s1 : σ}
    (h : prepararItem env emp s = .ok (emp1, s1)) : ∃ r, emp1.campos = some r := by
  cases emp with
  | nul => simp [prepararItem, Item.leer] at h
  | prim =>
    simp only [prepararItem, Item.leer, JsVal.truthy, Bool.not_false, if_true,
      Item.asignarIdEmpleado, Item.enPlantilla, Bool.false_eq_true, if_false,
      Except.ok.injEq, Prod.mk.injEq] at h
    rw [← h.1]
    exact ⟨_, rfl⟩
  | obj r0 =>
    by_cases ht : r0.IdEmpleado.truthy = true
    · simp only [prepararItem, Item.leer, ht, Bool.not_true, Bool.false_eq_true, if_false,
        Except.ok.injEq, Prod.mk.injEq] at h
      obtain ⟨h1, _⟩ := h
      subst h1
      exact ⟨_, rfl⟩
    · simp only [Bool.not_eq_true] at ht
      simp only [prepararItem, Item.leer, ht, Bool.not_false, if_true, Item.asignarIdEmpleado,
        Item.enPlantilla, Bool.false_eq_true, if_false] at h
      by_cases hn : r0.nombreSinTexto = true
      · simp [hn] at h
      · simp only [Bool.not_eq_true] at hn
        simp only [hn, Bool.false_eq_true, if_false, Except.ok.injEq, Prod.mk.injEq] at h
        rw [← h.1]
        exact ⟨_, rfl⟩

theorem preparar_of_conTexto {σ : Type} (env : Entorno σ) {emp : Item}
    (h : emp.conTexto = true) (s : σ) :
    ∃ emp1 s1 r, prepararItem env emp s = .ok (emp1, s1) ∧ emp1.campos = some r ∧
      r.idSinTexto = false := by
  cases emp with
  | nul => simp [Item.conTexto] at h
  | prim => exact ⟨.prim, (env.generarId s).2, {}, rfl, rfl, rfl⟩
  | obj r0 =>
    simp only [Item.conTexto, Bool.and_eq_true, Bool.not_eq_true'] at h
    obtain ⟨hn, hi⟩ := h
    by_cases ht : r0.IdEmpleado.truthy = true
    · exact ⟨.obj r0, s, r0, by simp [prepararItem, Item.leer, ht], rfl, hi⟩
    · simp only [Bool.not_eq_true] at ht
      refine ⟨(Item.obj r0).asignarIdEmpleado (.str (env.generarId s).1), (env.generarId s).2,
        ⟨r0.nombre, .str (env.generarId s).1, r0.rfc, r0.nss, r0.puesto, r0.fechaIngreso,
          r0.sueldo, r0.horas, r0.nombreSinTexto, false⟩, ?_, rfl, rfl⟩
      simp [prepararItem, Item.leer, ht, Item.asignarIdEmpleado, Item.enPlantilla, hn]

/-- On an item whose `puesto` is truthy and not a string, `calcularDatosNomina` throws:
`puesto.substring` is not a function. -/
theorem calcular_error {rt : Runtime} {emp : Item} {r : Registro} (hoy : Int)
    (hr : emp.campos = some r) (hp : ∀ p, r.puesto.or (.str "General") ≠ .str p) :
    calcularDatosNomina rt hoy emp = .error "puesto.substring is not a function" := by
  rcases hv : r.puesto.or (.str "General") with _ | _ | b | q | p | t
  all_goals
    first
      | exact absurd hv (hp _)
      | simp only [calcularDatosNomina, leer_of_campos hr, bind, Except.bind, hv]

/-! ## `calcularDatosNomina`: amounts, days, supervisor, department, period -/

/-- C4, as stated, fails in two places: on an item whose `puesto` is a number the
function throws and returns no amounts at all, and a `sueldo` of `true`, which is not a
number, is converted to 1 and gives the amounts 1, 0.38 and 0.62 instead of 0. -/
theorem montos_fuera_del_enunciado :
    calcularDatosNomina (runtimeAscii 0) 0 (.obj { sueldo := .num 1000, puesto := .num 5 }) =
      .error "puesto.substring is not a function" ∧
    ∃ d, calcularDatosNomina (runtimeAscii 0) 0 (.obj { sueldo := .bool true }) = .ok d ∧
      d.TotalPercepciones = 1 ∧ d.TotalDeducciones = 38 / 100 ∧
      d.TotalNetoPagado = 62 / 100 := by
  refine ⟨rfl, _, rfl, ?_, ?_, ?_⟩
  · show numOr (some (if true = true then (1 : ℚ) else 0)) 0 = 1
    simp [numOr]
  · show numOr (some (if true = true then (1 : ℚ) else 0)) 0 * (25 / 100) +
      numOr (some (if true = true then (1 : ℚ) else 0)) 0 * (13 / 100) = 38 / 100
    simp [numOr]
    norm_num
  · show numOr (some (if true = true then (1 : ℚ) else 0)) 0 -
      (numOr (some (if true = true then (1 : ℚ) else 0)) 0 * (25 / 100) +
        numOr (some (if true = true then (1 : ℚ) else 0)) 0 * (13 / 100)) = 62 / 100
    simp [numOr]
    norm_num

/-- C4, amended: on an item whose `puesto` is a string or falsy, `calcularDatosNomina`
returns, and over the rationals: when `sueldo` is a number `s ≥ 0`,
`TotalPercepciones = s`, `TotalDeducciones = 0.25 s + 0.13 s = 0.38 s` and
`TotalNetoPagado = s - TotalDeducciones = 0.62 s`; when `sueldo` is absent, `null`,
`false`, or converts under `Number` to `NaN` or to 0, the three amounts are 0; when
`sueldo` is `true` they are 1, 0.38 and 0.62.  On an item whose `puesto` is truthy and
not a string the function throws. -/
theorem calcular_montos (rt : Runtime) (hoy : Int) (emp : Item) (r : Registro)
    (hr : emp.campos = some r) :
    (∀ p, r.puesto.or (.str "General") = .str p →
      ∃ d, calcularDatosNomina rt hoy emp = .ok d ∧
        (∀ s : ℚ, r.sueldo = .num s → 0 ≤ s →
          d.TotalPercepciones = s ∧
          d.TotalDeducciones = 25 / 100 * s + 13 / 100 * s ∧
          d.TotalDeducciones = 38 / 100 * s ∧
          d.TotalNetoPagado = s - d.TotalDeducciones ∧
          d.TotalNetoPagado = 62 / 100 * s) ∧
        ((r.sueldo = .undefined ∨ r.sueldo = .null ∨ r.sueldo = .bool false ∨
            rt.number r.sueldo = none ∨ rt.number r.sueldo = some 0) →
          d.TotalPercepciones = 0 ∧ d.TotalDeducciones = 0 ∧ d.TotalNetoPagado = 0) ∧
        (r.sueldo = .bool true →
          d.TotalPercepciones = 1 ∧ d.TotalDeducciones = 38 / 100 ∧
          d.TotalNetoPagado = 62 / 100)) ∧
    ((∀ p, r.puesto.or (.str "General") ≠ .str p) →
      calcularDatosNomina rt hoy emp = .error "puesto.substring is not a function") := by
  refine ⟨fun p hp => ⟨_, calcular_eq hoy hr hp, ?_, ?_, ?_⟩, calcular_error hoy hr⟩
  · intro s hs _
    have hn : numOr (rt.number r.sueldo) 0 = s := by
      rw [hs]
      simp only [Runtime.number, numOr]
      split_ifs with h0
      · exact h0.symm
      · rfl
    refine ⟨hn, ?_, ?_, ?_, ?_⟩ <;> simp only [hn] <;> ring
  · intro h
    have hn : numOr (rt.number r.sueldo) 0 = 0 := by
      rcases h with h | h | h | h | h
      · rw [h]; rfl
      · rw [h]; simp [Runtime.number, numOr]
      · rw [h]; simp [Runtime.number, numOr]
      · rw [h]; rfl
      · rw [h]; simp [numOr]
    simp [hn]
  · intro h
    have hn : numOr (rt.number r.sueldo) 0 = 1 := by
      rw [h]; simp [Runtime.number, numOr]
    simp only [hn]
    norm_num

theorem calcular_montos_witness :
    (∃ d, calcularDatosNomina (runtimeAscii 0) 0
        (.obj { sueldo := .num 10000, puesto := .str "Senior Dev" }) = .ok d ∧
      d.TotalPercepciones = 10000 ∧ d.TotalDeducciones = 3800 ∧ d.TotalNetoPagado = 6200) ∧
    (∃ d, calcularDatosNomina (runtimeAscii 0) 0 (.obj { sueldo := .str "n/d" }) = .ok d ∧
      d.TotalPercepciones = 0 ∧ d.TotalDeducciones = 0 ∧ d.TotalNetoPagado = 0) ∧
    (∃ d, calcularDatosNomina (runtimeAscii 0) 0 (.obj { sueldo := .null }) = .ok d ∧
      d.TotalPercepciones = 0 ∧ d.TotalDeducciones = 0 ∧ d.TotalNetoPagado = 0) ∧
    (∃ d, calcularDatosNomina (runtimeAscii 0) 0 (.obj { sueldo := .str "" }) = .ok d ∧
      d.TotalPercepciones = 0 ∧ d.TotalDeducciones = 0 ∧ d.TotalNetoPagado = 0) ∧
    calcularDatosNomina (runtimeAscii 0) 0 (.obj { sueldo := .num 10000, puesto := .bool true }) =
      .error "puesto.substring is not a function" := by
  refine ⟨?_, ?_, ?_, ?_, ?_⟩
  · obtain ⟨d, hd, h1, _⟩ := (calcular_montos (runtimeAscii 0) 0
      (.obj { sueldo := .num 10000, puesto := .str "Senior Dev" }) _ rfl).1 "Senior Dev" rfl
    obtain ⟨a, _, c, _, e⟩ := h1 10000 rfl (by norm_num)
    exact ⟨d, hd, a, by rw [c]; norm_num, by rw [e]; norm_num⟩
  · obtain ⟨d, hd, _, h2, _⟩ := (calcular_montos (runtimeAscii 0) 0
      (.obj { sueldo := .str "n/d" }) _ rfl).1 "General" rfl
    exact ⟨d, hd, h2 (Or.inr (Or.inr (Or.inr (Or.inl rfl))))⟩
  · obtain ⟨d, hd, _, h2, _⟩ := (calcular_montos (runtimeAscii 0) 0
      (.obj { sueldo := .null }) _ rfl).1 "General" rfl
    exact ⟨d, hd, h2 (Or.inr (Or.inl rfl))⟩
  · obtain ⟨d, hd, _, h2, _⟩ := (calcular_montos (runtimeAscii 0) 0
      (.obj { sueldo := .str "" }) _ rfl).1 "General" rfl
    exact ⟨d, hd, h2 (Or.inr (Or.inr (Or.inr (Or.inr rfl))))⟩
  · exact (calcular_montos (runtimeAscii 0) 0
      (.obj { sueldo := .num 10000, puesto := .bool true }) _ rfl).2 (by
        intro p hp
        simp [JsVal.or, JsVal.truthy] at hp)

/-- C5, as stated, fails on an item whose `puesto` is a number: with `horas` = 100 the
function throws and returns no `Dias_Trabajados`. -/
theorem dias_puesto_numero :
    calcularDatosNomina (runtimeAscii 0) 0 (.obj { horas := .num 100, puesto := .num 5 }) =
      .error "puesto.substring is not a function" := by
  rfl

/-- C5, amended: on an item whose `puesto` is a string or falsy and whose `horas` is a
non-negative integer `h`, `Dias_Trabajados` is `h / 8` rounded to two decimals when
`h > 0` (the nearest multiple of 1/100, so within 1/200 of `h / 8`), and exactly 20
when `h = 0`.  On an item whose `puesto` is truthy and not a string the function
throws. -/
theorem calcular_dias (rt : Runtime) (hoy : Int) (emp : Item) (r : Registro)
    (h : ℕ) (hr : emp.campos = some r) (hh : r.horas = .num h) :
    (∀ p, r.puesto.or (.str "General") = .str p →
      ∃ d, calcularDatosNomina rt hoy emp = .ok d ∧
        (0 < h → d.Dias_Trabajados = (round ((h : ℚ) / 8 * 100) : ℚ) / 100 ∧
          |d.Dias_Trabajados - (h : ℚ) / 8| ≤ 1 / 200) ∧
        (h = 0 → d.Dias_Trabajados = 20)) ∧
    ((∀ p, r.puesto.or (.str "General") ≠ .str p) →
      calcularDatosNomina rt hoy emp = .error "puesto.substring is not a function") := by
  refine ⟨fun p hp => ⟨_, calcular_eq hoy hr hp, ?_, ?_⟩, calcular_error hoy hr⟩
  · intro hpos
    have hq : (0 : ℚ) < h := by exact_mod_cast hpos
    have hd : diasTrabajados rt r.horas = (round ((h : ℚ) / 8 * 100) : ℚ) / 100 := by
      simp only [diasTrabajados, hh, Runtime.number, numOr, if_neg hq.ne', if_pos hq, mathRound,
        round_eq]
    refine ⟨hd, ?_⟩
    show |diasTrabajados rt r.horas - (h : ℚ) / 8| ≤ 1 / 200
    rw [hd]
    have hr2 := abs_sub_round ((h : ℚ) / 8 * 100)
    rw [abs_le] at hr2 ⊢
    constructor <;> linarith [hr2.1, hr2.2]
  · intro h0
    subst h0
    show diasTrabajados rt r.horas = 20
    simp only [diasTrabajados, hh, Runtime.number, numOr, mathRound]
    norm_num

theorem calcular_dias_witness :
    (∃ d, calcularDatosNomina (runtimeAscii 0) 0 (.obj { horas := .num 100 }) = .ok d ∧
      d.Dias_Trabajados = 25 / 2) ∧
    (∃ d, calcularDatosNomina (runtimeAscii 0) 0 (.obj { horas := .num 160 }) = .ok d ∧
      d.Dias_Trabajados = 20) ∧
    (∃ d, calcularDatosNomina (runtimeAscii 0) 0 (.obj { horas := .num 0 }) = .ok d ∧
      d.Dias_Trabajados = 20) := by
  refine ⟨?_, ?_, ?_⟩
  · obtain ⟨d, hd, h1, _⟩ := (calcular_dias (runtimeAscii 0) 0 (.obj { horas := .num 100 }) _
      100 rfl (by norm_num)).1 "General" rfl
    refine ⟨d, hd, ?_⟩
    rw [(h1 (by norm_num)).1, round_eq]
    norm_num
  · obtain ⟨d, hd, h1, _⟩ := (calcular_dias (runtimeAscii 0) 0 (.obj { horas := .num 160 }) _
      160 rfl (by norm_num)).1 "General" rfl
    refine ⟨d, hd, ?_⟩
    rw [(h1 (by norm_num)).1, round_eq]
    norm_num
  · obtain ⟨d, hd, _, h2⟩ := (calcular_dias (runtimeAscii 0) 0 (.obj { horas := .num 0 }) _
      0 rfl (by norm_num)).1 "General" rfl
    exact ⟨d, hd, h2 rfl⟩

theorem or_general_of_str (p : String) (hne : p ≠ "") :
    (JsVal.str p).or (.str "General") = .str p := by
  simp [JsVal.or, JsVal.truthy, hne]

theorem or_general_of_falsy {v : JsVal} (hv : v.truthy = false) :
    v.or (.str "General") = .str "General" := by
  simp [JsVal.or, hv]

theorem supervisor_eq (p : String) :
    (("Jr".data <:+: p.data ∨ "Junior".data <:+: p.data) →
        supervisor p = "Supervisor de Desarrollo") ∧
    (¬ ("Jr".data <:+: p.data ∨ "Junior".data <:+: p.data) →
        ("Senior".data <:+: p.data ∨ "Sr".data <:+: p.data) →
        supervisor p = "Gerente de Área") ∧
    (¬ ("Jr".data <:+: p.data ∨ "Junior".data <:+: p.data) →
        ¬ ("Senior".data <:+: p.data ∨ "Sr".data <:+: p.data) →
        supervisor p = "Supervisor General") := by
  simp only [← incluye_iff]
  refine ⟨?_, ?_, ?_⟩
  · intro hj
    simp only [supervisor, includes, ← Bool.or_eq_true] at hj ⊢
    rw [if_pos hj]
  · intro hj hs
    simp only [supervisor, includes, ← Bool.or_eq_true] at hj hs ⊢
    rw [if_neg hj, if_pos hs]
  · intro hj hs
    simp only [supervisor, includes, ← Bool.or_eq_true] at hj hs ⊢
    rw [if_neg hj, if_neg hs]

/-- C7: for every string `puesto`, `Supervisor` is chosen by the first matching rule,
case-sensitively: 'Supervisor de Desarrollo' when `puesto` contains "Jr" or "Junior"
(whatever else it contains); otherwise 'Gerente de Área' when it contains "Senior" or
"Sr"; otherwise 'Supervisor General', which is also the result when `puesto` is
absent. -/
theorem calcular_supervisor (rt : Runtime) (hoy : Int) (emp : Item) (r : Registro)
    (hr : emp.campos = some r) :
    (∀ p : String, r.puesto = .str p →
      ∃ d, calcularDatosNomina rt hoy emp = .ok d ∧
        (("Jr".data <:+: p.data ∨ "Junior".data <:+: p.data) →
          d.Supervisor = "Supervisor de Desarrollo") ∧
        (¬ ("Jr".data <:+: p.data ∨ "Junior".data <:+: p.data) →
          ("Senior".data <:+: p.data ∨ "Sr".data <:+: p.data) →
          d.Supervisor = "Gerente de Área") ∧
        (¬ ("Jr".data <:+: p.data ∨ "Junior".data <:+: p.data) →
          ¬ ("Senior".data <:+: p.data ∨ "Sr".data <:+: p.data) →
          d.Supervisor = "Supervisor General")) ∧
    (r.puesto = .undefined →
      ∃ d, calcularDatosNomina rt hoy emp = .ok d ∧ d.Supervisor = "Supervisor General") := by
  constructor
  · intro p hp
    by_cases hne : p = ""
    · subst hne
      have hg : r.puesto.or (.str "General") = .str "General" := by rw [hp]; rfl
      refine ⟨_, calcular_eq hoy hr hg, ?_, ?_, ?_⟩
      · intro hj
        exfalso
        revert hj
        simp only [← incluye_iff]
        decide
      · intro _ hs
        exfalso
        revert hs
        simp only [← incluye_iff]
        decide
      · intro _ _
        rfl
    · have hg : r.puesto.or (.str "General") = .str p := by
        rw [hp]; exact or_general_of_str p hne
      exact ⟨_, calcular_eq hoy hr hg, supervisor_eq p⟩
  · intro hp
    have hg : r.puesto.or (.str "General") = .str "General" := by rw [hp]; rfl
    exact ⟨_, calcular_eq hoy hr hg, rfl⟩

theorem calcular_supervisor_witness :
    (∃ d, calcularDatosNomina (runtimeAscii 0) 0 (.obj { puesto := .str "Sr Dev Jr" }) = .ok d ∧
      d.Supervisor = "Supervisor de Desarrollo") ∧
    (∃ d, calcularDatosNomina (runtimeAscii 0) 0 (.obj { puesto := .str "Senior Dev" }) = .ok d ∧
      d.Supervisor = "Gerente de Área") ∧
    (∃ d, calcularDatosNomina (runtimeAscii 0) 0 (.obj { puesto := .str "senior jr" }) = .ok d ∧
      d.Supervisor = "Supervisor General") ∧
    (∃ d, calcularDatosNomina (runtimeAscii 0) 0 .prim = .ok d ∧
      d.Supervisor = "Supervisor General") := by
  refine ⟨?_, ?_, ?_, ?_⟩
  · obtain ⟨d, hd, h1, _, _⟩ := (calcular_supervisor (runtimeAscii 0) 0
      (.obj { puesto := .str "Sr Dev Jr" }) _ rfl).1 "Sr Dev Jr" rfl
    exact ⟨d, hd, h1 (by simp only [← incluye_iff]; decide)⟩
  · obtain ⟨d, hd, _, h2, _⟩ := (calcular_supervisor (runtimeAscii 0) 0
      (.obj { puesto := .str "Senior Dev" }) _ rfl).1 "Senior Dev" rfl
    exact ⟨d, hd, h2 (by simp only [← incluye_iff]; decide) (by simp only [← incluye_iff]; decide)⟩
  · obtain ⟨d, hd, _, _, h3⟩ := (calcular_supervisor (runtimeAscii 0) 0
      (.obj { puesto := .str "senior jr" }) _ rfl).1 "senior jr" rfl
    exact ⟨d, hd, h3 (by simp only [← incluye_iff]; decide) (by simp only [← incluye_iff]; decide)⟩
  · obtain ⟨d, hd, h⟩ := (calcular_supervisor (runtimeAscii 0) 0 .prim _ rfl).2 rfl
    exact ⟨d, hd, h⟩

theorem take_utf16_bmp : ∀ (l : List Char) (n : Nat),
    (∀ c ∈ l.take n, c.toNat < 65536) →
      (l.flatMap utf16DeChar).take n = (l.take n).flatMap utf16DeChar := by
  intro l
  induction l with
  | nil => intro n _; simp
  | cons c cs ih =>
    intro n h
    cases n with
    | zero => simp
    | succ m =>
      have hc : c.toNat < 65536 := h c (by simp)
      have hcs : ∀ x ∈ cs.take m, x.toNat < 65536 := fun x hx => h x (by simp [hx])
      simp only [List.flatMap_cons, List.take_succ_cons, utf16DeChar, if_pos hc,
        List.singleton_append, ih m hcs]

/-- C8, as stated, fails in two places.  The empty string has fewer than 3 characters,
yet the code takes the default 'General' and returns "DEP-GEN", not "DEP-" followed by
nothing.  And `substring(0, 3)` counts UTF-16 code units: on a `puesto` of three
characters that starts with U+1F600 the code keeps the two surrogates of that
character and the letter after it, not the three characters. -/
theorem departamento_puesto_vacio :
    (∃ d, calcularDatosNomina (runtimeAscii 0) 0 (.obj { puesto := .str "" }) = .ok d ∧
      d.IdDepartamento = utf16 "DEP-GEN" ∧
      d.IdDepartamento ≠ utf16 "DEP-" ++ (runtimeAscii 0).toUpperCase (utf16 "")) ∧
    (∃ d, calcularDatosNomina (runtimeAscii 0) 0
        (.obj { puesto := .str ⟨[Char.ofNat 128512, 'a', 'b']⟩ }) = .ok d ∧
      d.IdDepartamento = utf16 "DEP-" ++ [55357, 56832, 65] ∧
      d.IdDepartamento ≠ utf16 "DEP-" ++
        (runtimeAscii 0).toUpperCase (utf16 ⟨[Char.ofNat 128512, 'a', 'b']⟩)) :=
  ⟨⟨_, rfl, by decide, by decide⟩, ⟨_, rfl, by decide, by decide⟩⟩

/-- C8, amended: for every item whose `puesto` is a non-empty string, `IdDepartamento`
is "DEP-" followed by the upper-cased first 3 UTF-16 code units of `puesto`: its first
3 characters when these lie in the Basic Multilingual Plane, and the whole of it when
it has fewer than 3 code units; when `puesto` is absent, null or the empty string it is
"DEP-GEN" (given that the runtime upper-cases "Gen" to "GEN"). -/
theorem calcular_departamento (rt : Runtime) (hoy : Int) (emp : Item) (r : Registro)
    (hr : emp.campos = some r) (hGen : rt.toUpperCase (utf16 "Gen") = utf16 "GEN") :
    (∀ p : String, r.puesto = .str p → p ≠ "" →
      ∃ d, calcularDatosNomina rt hoy emp = .ok d ∧
        d.IdDepartamento = utf16 "DEP-" ++ rt.toUpperCase ((utf16 p).take 3) ∧
        ((∀ c ∈ p.data.take 3, c.toNat < 65536) →
          d.IdDepartamento = utf16 "DEP-" ++ rt.toUpperCase (utf16 ⟨p.data.take 3⟩)) ∧
        ((utf16 p).length < 3 → d.IdDepartamento = utf16 "DEP-" ++ rt.toUpperCase (utf16 p))) ∧
    (r.puesto.truthy = false →
      ∃ d, calcularDatosNomina rt hoy emp = .ok d ∧ d.IdDepartamento = utf16 "DEP-GEN") := by
  constructor
  · intro p hp hne
    have hg : r.puesto.or (.str "General") = .str p := by
      rw [hp]; exact or_general_of_str p hne
    refine ⟨_, calcular_eq hoy hr hg, rfl, ?_, ?_⟩
    · intro hbmp
      show utf16 "DEP-" ++ rt.toUpperCase (substring0 p 3) = _
      simp only [substring0, utf16, take_utf16_bmp p.data 3 hbmp]
    · intro hlen
      show utf16 "DEP-" ++ rt.toUpperCase (substring0 p 3) = _
      simp only [substring0]
      rw [List.take_of_length_le (Nat.le_of_lt hlen)]
  · intro hf
    refine ⟨_, calcular_eq hoy hr (or_general_of_falsy hf), ?_⟩
    show utf16 "DEP-" ++ rt.toUpperCase (substring0 "General" 3) = utf16 "DEP-GEN"
    have : substring0 "General" 3 = utf16 "Gen" := by decide
    rw [this, hGen]
    decide

theorem calcular_departamento_witness :
    (∃ d, calcularDatosNomina (runtimeAscii 0) 0 (.obj { puesto := .str "Senior Dev" }) = .ok d ∧
      d.IdDepartamento = utf16 "DEP-SEN") ∧
    (∃ d, calcularDatosNomina (runtimeAscii 0) 0 (.obj { puesto := .str "qa" }) = .ok d ∧
      d.IdDepartamento = utf16 "DEP-QA") ∧
    (∃ d, calcularDatosNomina (runtimeAscii 0) 0 (.obj { puesto := .null }) = .ok d ∧
      d.IdDepartamento = utf16 "DEP-GEN") := by
  refine ⟨?_, ?_, ?_⟩
  · obtain ⟨d, hd, _, h1, _⟩ := (calcular_departamento (runtimeAscii 0) 0
      (.obj { puesto := .str "Senior Dev" }) _ rfl (by decide)).1 "Senior Dev" rfl (by decide)
    exact ⟨d, hd, (h1 (by decide)).trans (by decide)⟩
  · obtain ⟨d, hd, _, _, h2⟩ := (calcular_departamento (runtimeAscii 0) 0
      (.obj { puesto := .str "qa" }) _ rfl (by decide)).1 "qa" rfl (by decide)
    exact ⟨d, hd, (h2 (by decide)).trans (by decide)⟩
  · obtain ⟨d, hd, h⟩ := (calcular_departamento (runtimeAscii 0) 0
      (.obj { puesto := .null }) _ rfl (by decide)).2 rfl
    exact ⟨d, hd, h⟩

/-- C6 fails east of Greenwich.  With the local zone one hour ahead of UTC and the
clock at 2024-03-15 12:00 local time (11:00 UTC), the current local month is March
2024, yet `fechaInicioPeriodo` is "2024-02-29" and `fechaFinPeriodo` is "2024-03-30":
local midnight of the first and of the last day of March, rendered by `toISOString`
in UTC, fall on the previous calendar day. -/
theorem periodo_zona_este :
    (runtimeAscii 60).getFullYear 1710500400000 = 2024 ∧
    (runtimeAscii 60).getMonth 1710500400000 = 2 ∧
    ∃ d, calcularDatosNomina (runtimeAscii 60) 1710500400000 (.obj {}) = .ok d ∧
      d.fechaInicioPeriodo = "2024-02-29" ∧ d.fechaFinPeriodo = "2024-03-30" :=
  ⟨by decide, by decide, _, rfl, by decide, by decide⟩


/-! ## The batch loop -/

theorem enPlantilla_of_campos {emp : Item} {r : Registro} (h : emp.campos = some r)
    (campo : String) (f : Registro → Bool) :
    emp.enPlantilla campo f =
      if f r then .error "Cannot convert object to primitive value" else .ok () := by
  cases emp with
  | nul => simp [Item.campos] at h
  | prim =>
    simp only [Item.campos, Option.some.injEq] at h
    subst h
    rfl
  | obj r0 =>
    simp only [Item.campos, Option.some.injEq] at h
    subst h
    rfl

theorem registrarError_eq {emp : Item} {r : Registro} (h : emp.campos = some r)
    (acc : Contadores) (msg : String) :
    registrarError emp acc msg =
      if r.idSinTexto then .error "Cannot convert object to primitive value"
      else .ok { acc with omitidos := acc.omitidos + 1,
                          errores := acc.errores ++ [(r.nombre.or r.IdEmpleado, msg)] } := by
  simp only [registrarError, leer_of_campos h, enPlantilla_of_campos h, bind, Except.bind,
    pure, Except.pure]
  split_ifs <;> rfl

theorem procesarItem_some {σ : Type} (rt : Runtime) (env : Entorno σ) (acc : Contadores)
    {emp emp1 : Item} {s s1 : σ} {r : Registro} {id : Nat}
    (hprep : prepararItem env emp s = .ok (emp1, s1)) (hr : emp1.campos = some r)
    (hid : (idResuelto env r s1).1 = some id) :
    procesarItem rt env acc emp s =
      (.ok (crearNomina rt env emp1 id { acc with procesados := acc.procesados + 1 }
          (idResuelto env r s1).2).1,
        (crearNomina rt env emp1 id { acc with procesados := acc.procesados + 1 }
          (idResuelto env r s1).2).2) := by
  simp only [procesarItem, hprep, guardarEmpleado_some rt env hr acc s1 hid]

theorem procesarItem_none {σ : Type} (rt : Runtime) (env : Entorno σ) (acc : Contadores)
    {emp emp1 : Item} {s s1 : σ} {r : Registro}
    (hprep : prepararItem env emp s = .ok (emp1, s1)) (hr : emp1.campos = some r)
    (hid : (idResuelto env r s1).1 = none) :
    ∃ msg, procesarItem rt env acc emp s =
      (registrarError emp1 acc msg, (idResuelto env r s1).2) := by
  obtain ⟨msg, hmsg⟩ := guardarEmpleado_none rt env hr acc s1 hid
  exact ⟨msg, by simp only [procesarItem, hprep, hmsg]⟩

/-- Whatever the item, an iteration that ends normally has raised `procesados` by at
most one and `nominasCreadas` by no more than `procesados`. -/
theorem procesarItem_seguro {σ : Type} (rt : Runtime) (env : Entorno σ) (acc acc1 : Contadores)
    (emp : Item) (s : σ) (h : (procesarItem rt env acc emp s).1 = .ok acc1) :
    acc.nominasCreadas ≤ acc1.nominasCreadas ∧
      acc1.nominasCreadas + acc.procesados ≤ acc1.procesados + acc.nominasCreadas ∧
      acc1.procesados ≤ acc.procesados + 1 := by
  rcases hprep : prepararItem env emp s with e | ⟨emp1, s1⟩
  · simp [procesarItem, hprep] at h
  · obtain ⟨r, hr⟩ := campos_of_preparar env hprep
    rcases hid : (idResuelto env r s1).1 with _ | id
    · obtain ⟨msg, hmsg⟩ := procesarItem_none rt env acc hprep hr hid
      rw [hmsg, registrarError_eq hr] at h
      by_cases hi : r.idSinTexto = true
      · simp [hi] at h
      · simp only [hi, Bool.false_eq_true, if_false, Except.ok.injEq] at h
        subst h
        exact ⟨le_refl _, by simp only [Nat.add_comm]; exact le_refl _, Nat.le_succ _⟩
    · rw [procesarItem_some rt env acc hprep hr hid] at h
      simp only [Except.ok.injEq] at h
      subst h
      simp only [crearNomina_fst rt env hr]
      split_ifs <;> omega

/-- The effect of one iteration on an item whose string conversions cannot throw. -/
theorem procesarItem_paso {σ : Type} (rt : Runtime) (env : Entorno σ) (acc : Contadores)
    {emp : Item} (hct : emp.conTexto = true) (s : σ) :
    ∃ acc1 f, procesarItem rt env acc emp s = (.ok acc1, (procesarItem rt env {} emp s).2) ∧
      guardadosFallidos rt env [emp] s = f ∧
      f ≤ 1 ∧
      acc1.procesados + f = acc.procesados + 1 ∧
      acc1.omitidos = acc.omitidos + f ∧
      acc1.errores.length = acc.errores.length + f ∧
      acc.nominasCreadas ≤ acc1.nominasCreadas ∧
      acc1.nominasCreadas + acc.procesados ≤ acc1.procesados + acc.nominasCreadas := by
  obtain ⟨emp1, s1, r, hprep, hr, hi⟩ := preparar_of_conTexto env hct s
  rcases hid : (idResuelto env r s1).1 with _ | id
  · obtain ⟨msg, hmsg⟩ := procesarItem_none rt env acc hprep hr hid
    obtain ⟨msg0, hmsg0⟩ := procesarItem_none rt env {} hprep hr hid
    refine ⟨{ acc with omitidos := acc.omitidos + 1,
                       errores := acc.errores ++ [(r.nombre.or r.IdEmpleado, msg)] },
      1, ?_, ?_, le_refl _, ?_, rfl, ?_, le_refl _, ?_⟩
    · rw [hmsg, hmsg0, registrarError_eq hr, hi]
      rfl
    · simp [guardadosFallidos, hprep, hr, hid]
    · simp
    · simp
    · simp only [Nat.add_comm]; exact le_refl _
  · refine ⟨(crearNomina rt env emp1 id { acc with procesados := acc.procesados + 1 }
        (idResuelto env r s1).2).1, 0, ?_, ?_, Nat.zero_le _, ?_, ?_, ?_, ?_, ?_⟩
    · rw [procesarItem_some rt env acc hprep hr hid, procesarItem_some rt env {} hprep hr hid]
      rw [crearNomina_snd rt env emp1 id _ { ({} : Contadores) with procesados := 0 + 1 }]
    · simp [guardadosFallidos, hprep, hr, hid]
    all_goals
      simp only [crearNomina_fst rt env hr, Nat.add_zero]
      try (split_ifs <;> omega)

theorem guardadosFallidos_cons {σ : Type} (rt : Runtime) (env : Entorno σ) (emp : Item)
    (resto : List Item) (s : σ) :
    guardadosFallidos rt env (emp :: resto) s =
      guardadosFallidos rt env [emp] s +
        guardadosFallidos rt env resto (procesarItem rt env {} emp s).2 := by
  simp only [guardadosFallidos, Nat.add_zero]

/-- The loop over a batch in which no string conversion can throw: it ends normally,
and its accumulators have moved by the numbers of saved and of failed items. -/
theorem bucle_invariante {σ : Type} (rt : Runtime) (env : Entorno σ) :
    ∀ (emps : List Item) (acc : Contadores) (s : σ), (∀ e ∈ emps, e.conTexto = true) →
      ∃ acc1, (bucle rt env emps acc s).1 = .ok acc1 ∧
        guardadosFallidos rt env emps s ≤ emps.length ∧
        acc1.procesados + guardadosFallidos rt env emps s = acc.procesados + emps.length ∧
        acc1.omitidos = acc.omitidos + guardadosFallidos rt env emps s ∧
        acc1.errores.length = acc.errores.length + guardadosFallidos rt env emps s ∧
        acc.nominasCreadas ≤ acc1.nominasCreadas ∧
        acc1.nominasCreadas + acc.procesados ≤ acc1.procesados + acc.nominasCreadas := by
  intro emps
  induction emps with
  | nil =>
    intro acc s _
    exact ⟨acc, rfl, by simp [guardadosFallidos], by simp [guardadosFallidos],
      by simp [guardadosFallidos], by simp [guardadosFallidos], le_refl _,
      by simp only [Nat.add_comm]; exact le_refl _⟩
  | cons emp resto ih =>
    intro acc s hnn
    obtain ⟨acc1, f, hstep, hf, hf1, hp, ho, he, hn1, hn2⟩ :=
      procesarItem_paso rt env acc (hnn emp (List.mem_cons_self _ _)) s
    obtain ⟨acc2, hb, hm, hp2, ho2, he2, hn3, hn4⟩ :=
      ih acc1 (procesarItem rt env {} emp s).2 (fun e he => hnn e (List.mem_cons_of_mem _ he))
    refine ⟨acc2, ?_, ?_, ?_, ?_, ?_, ?_, ?_⟩
    · simp only [bucle, hstep]
      exact hb
    all_goals
      try rw [guardadosFallidos_cons, hf]
      try simp only [List.length_cons]
      omega

/-- The loop over any batch: if it ends normally, `nominasCreadas` has risen by no more
than `procesados`, and `procesados` by no more than the number of items. -/
theorem bucle_seguro {σ : Type} (rt : Runtime) (env : Entorno σ) :
    ∀ (emps : List Item) (acc acc1 : Contadores) (s : σ),
      (bucle rt env emps acc s).1 = .ok acc1 →
        acc.nominasCreadas ≤ acc1.nominasCreadas ∧
        acc1.nominasCreadas + acc.procesados ≤ acc1.procesados + acc.nominasCreadas ∧
        acc1.procesados ≤ acc.procesados + emps.length := by
  intro emps
  induction emps with
  | nil =>
    intro acc acc1 s h
    simp only [bucle, Except.ok.injEq] at h
    subst h
    exact ⟨le_refl _, by simp only [Nat.add_comm]; exact le_refl _, Nat.le_add_right _ _⟩
  | cons emp resto ih =>
    intro acc acc1 s h
    rcases hstep : procesarItem rt env acc emp s with ⟨res, s1⟩
    cases res with
    | error e => simp [bucle, hstep] at h
    | ok acc0 =>
      simp only [bucle, hstep] at h
      have h0 := procesarItem_seguro rt env acc acc0 emp s (by rw [hstep])
      have h1 := ih acc0 acc1 s1 h
      simp only [List.length_cons]
      omega

/-! ## `POST /api/employees`: the summary -/

/-- C1, as stated, fails on a record whose `IdEmpleado` is an object without a string
conversion (the JSON object with a `toString` that is not a function): when its upsert
throws, the log line of 294, inside the item's `catch`, throws in turn, and the handler
answers 500 where the claim, with `N = 1` and `M = 1`, gives a summary with
`omitidos = 1`. -/
theorem resumen_sin_texto :
    postEmployees (runtimeAscii 0) (entornoGuion 0)
        (some [.obj { IdEmpleado := .compound "", idSinTexto := true }])
        [.falla "Unknown column 'toString' in 'field list'"] =
      (.error 500 "Error al guardar empleados"
        (some "Cannot convert object to primitive value"), []) ∧
    guardadosFallidos (runtimeAscii 0) (entornoGuion 0)
        [.obj { IdEmpleado := .compound "", idSinTexto := true }]
        [.falla "Unknown column 'toString' in 'field list'"] = 1 :=
  ⟨rfl, rfl⟩

/-- C1, amended: for a batch of `N` employee records in which no element is `null` and
no `nombre` or `IdEmpleado` is an object without a string conversion, and for every
behaviour of the store, with `M` the number of items whose employee save fails, the
handler answers with the summary, in which `procesados = N - M`, `omitidos = M`, and
`errores` is a list of length `M`, absent when `M = 0`. -/
theorem postEmployees_resumen {σ : Type} (rt : Runtime) (env : Entorno σ) (emps : List Item)
    (s : σ) (hct : ∀ e ∈ emps, e.conTexto = true) :
    ∃ nc errs, (postEmployees rt env (some emps) s).1 =
        .resumen (emps.length - guardadosFallidos rt env emps s) nc
          (guardadosFallidos rt env emps s) errs ∧
      guardadosFallidos rt env emps s ≤ emps.length ∧
      (guardadosFallidos rt env emps s = 0 → errs = none) ∧
      (0 < guardadosFallidos rt env emps s →
        ∃ l, errs = some l ∧ l.length = guardadosFallidos rt env emps s) := by
  obtain ⟨acc1, hb, hm, hp, ho, he, _, _⟩ := bucle_invariante rt env emps {} s hct
  rcases hbs : bucle rt env emps {} s with ⟨res, s1⟩
  rw [hbs] at hb
  simp only at hb
  subst hb
  simp only [Nat.zero_add, List.length_nil] at hp ho he
  refine ⟨acc1.nominasCreadas, if acc1.errores.length > 0 then some acc1.errores else none,
    ?_, hm, ?_, ?_⟩
  · simp only [postEmployees, hbs, ← ho]
    congr 1
    omega
  · intro h0
    rw [he, h0]
    rfl
  · intro hpos
    refine ⟨acc1.errores, ?_, he⟩
    rw [he]
    simp [hpos]

theorem postEmployees_resumen_witness :
    (∀ e ∈ loteEjemplo, e.conTexto = true) ∧
    ∃ nc errs, (postEmployees (runtimeAscii 0) (entornoGuion 0) (some loteEjemplo)
        guionEjemplo).1 =
        .resumen (loteEjemplo.length -
            guardadosFallidos (runtimeAscii 0) (entornoGuion 0) loteEjemplo guionEjemplo) nc
          (guardadosFallidos (runtimeAscii 0) (entornoGuion 0) loteEjemplo guionEjemplo) errs ∧
      guardadosFallidos (runtimeAscii 0) (entornoGuion 0) loteEjemplo guionEjemplo
        ≤ loteEjemplo.length ∧
      (guardadosFallidos (runtimeAscii 0) (entornoGuion 0) loteEjemplo guionEjemplo = 0 →
        errs = none) ∧
      (0 < guardadosFallidos (runtimeAscii 0) (entornoGuion 0) loteEjemplo guionEjemplo →
        ∃ l, errs = some l ∧
          l.length = guardadosFallidos (runtimeAscii 0) (entornoGuion 0) loteEjemplo
            guionEjemplo) :=
  ⟨by decide, postEmployees_resumen (runtimeAscii 0) (entornoGuion 0) loteEjemplo guionEjemplo
    (by decide)⟩

/-- The example batch, run: one item saved with its payroll row, two items skipped. -/
theorem postEmployees_ejemplo :
    (postEmployees (runtimeAscii 0) (entornoGuion 0) (some loteEjemplo) guionEjemplo).1 =
      .resumen 1 1 2 (some [(.str "Luis", "Data too long for column 'rfc'"),
        (.str "Eva", "No se pudo obtener el ID interno del empleado")]) ∧
    guardadosFallidos (runtimeAscii 0) (entornoGuion 0) loteEjemplo guionEjemplo = 2 :=
  ⟨rfl, rfl⟩

/-- A record without `IdEmpleado` whose `nombre` is an object without a string
conversion: the log line of 231, before the item's `try`, throws, and the handler
answers 500 without sending any statement. -/
theorem postEmployees_nombre_sin_texto :
    postEmployees (runtimeAscii 0) (entornoGuion 0)
        (some [.obj { nombre := .compound "", nombreSinTexto := true }])
        [.insertId 1, .hecho] =
      (.error 500 "Error al guardar empleados"
        (some "Cannot convert object to primitive value"), [.insertId 1, .hecho]) := by
  rfl

/-- C2 fails on a `null` element: reading `emp.IdEmpleado` at line 228 happens before
the item's `try`, so the `TypeError` reaches the outer `catch`.  Whatever the store does
and whatever follows the `null`, the handler answers 500, sends no statement, and none
of the later items is processed. -/
theorem postEmployees_null (σ : Type) (rt : Runtime) (env : Entorno σ) (resto : List Item)
    (s : σ) :
    postEmployees rt env (some (.nul :: resto)) s =
      (.error 500 "Error al guardar empleados"
        (some "Cannot read properties of null (reading 'IdEmpleado')"), s) := by
  rfl

/-- A `null` in the middle of a batch: the item before it is saved, the handler
answers 500, and the item after it is never reached (its script steps are left). -/
theorem postEmployees_null_en_medio :
    postEmployees (runtimeAscii 0) (entornoGuion 0)
        (some [.obj { nombre := .str "Ana" }, .nul, .obj { nombre := .str "Luis" }])
        [.insertId 1, .hecho, .insertId 2, .hecho] =
      (.error 500 "Error al guardar empleados"
        (some "Cannot read properties of null (reading 'IdEmpleado')"),
        [.insertId 2, .hecho]) := by
  rfl

/-- C3: for an item whose employee save resolves an internal id, the iteration ends
normally with `procesados` one higher and `omitidos` and `errores` untouched, whatever
payroll generation does; `nominasCreadas` is unchanged when `calcularDatosNomina` or
the `Nominas` insert throws, and one higher when the insert succeeds. -/
theorem procesarItem_guardado {σ : Type} (rt : Runtime) (env : Entorno σ) (acc : Contadores)
    (emp emp1 : Item) (s s1 : σ) (r : Registro) (id : Nat)
    (hprep : prepararItem env emp s = .ok (emp1, s1)) (hr : emp1.campos = some r)
    (hid : (idResuelto env r s1).1 = some id) :
    ∃ acc1, (procesarItem rt env acc emp s).1 = .ok acc1 ∧
      acc1.procesados = acc.procesados + 1 ∧
      acc1.omitidos = acc.omitidos ∧
      acc1.errores = acc.errores ∧
      (∀ e, calcularDatosNomina rt (env.ahora (idResuelto env r s1).2) emp1 = .error e →
        acc1.nominasCreadas = acc.nominasCreadas) ∧
      (∀ d e, calcularDatosNomina rt (env.ahora (idResuelto env r s1).2) emp1 = .ok d →
        (env.insertNomina id r.IdEmpleado d (idResuelto env r s1).2).1 = .error e →
        acc1.nominasCreadas = acc.nominasCreadas) ∧
      (∀ d, calcularDatosNomina rt (env.ahora (idResuelto env r s1).2) emp1 = .ok d →
        (env.insertNomina id r.IdEmpleado d (idResuelto env r s1).2).1 = .ok () →
        acc1.nominasCreadas = acc.nominasCreadas + 1) := by
  refine ⟨_, by rw [procesarItem_some rt env acc hprep hr hid], ?_, ?_, ?_, ?_, ?_, ?_⟩
  all_goals simp only [crearNomina_fst rt env hr]
  · intro e he
    simp [nominaInsertada, he]
  · intro d e hd he
    simp [nominaInsertada, hd, he]
  · intro d hd hi
    simp [nominaInsertada, hd, hi]

theorem procesarItem_guardado_witness :
    (∃ acc1, (procesarItem (runtimeAscii 0) (entornoGuion 0) {}
        (.obj { nombre := .str "Ana", puesto := .str "Senior Dev" })
        [.insertId 0, .filas [7], .falla "Cannot add or update a child row"]).1 = .ok acc1 ∧
      acc1.procesados = 1 ∧ acc1.omitidos = 0 ∧ acc1.errores = [] ∧
      acc1.nominasCreadas = 0) ∧
    (∃ acc1, (procesarItem (runtimeAscii 0) (entornoGuion 0) {}
        (.obj { nombre := .str "Ana", puesto := .num 5 }) [.insertId 7, .hecho]).1 = .ok acc1 ∧
      acc1.procesados = 1 ∧ acc1.omitidos = 0 ∧ acc1.errores = [] ∧
      acc1.nominasCreadas = 0) ∧
    (∃ acc1, (procesarItem (runtimeAscii 0) (entornoGuion 0) {}
        (.obj { nombre := .str "Ana", puesto := .str "Senior Dev" })
        [.insertId 7, .hecho]).1 = .ok acc1 ∧
      acc1.procesados = 1 ∧ acc1.omitidos = 0 ∧ acc1.errores = [] ∧
      acc1.nominasCreadas = 1) := by
  refine ⟨?_, ?_, ?_⟩
  · obtain ⟨acc1, h, hp, ho, he, _, h2, _⟩ := procesarItem_guardado (runtimeAscii 0)
      (entornoGuion 0) {} (.obj { nombre := .str "Ana", puesto := .str "Senior Dev" })
      (.obj { nombre := .str "Ana", IdEmpleado := .str "EMP-1-abc", puesto := .str "Senior Dev" })
      [.insertId 0, .filas [7], .falla "Cannot add or update a child row"]
      [.insertId 0, .filas [7], .falla "Cannot add or update a child row"] _ 7 rfl rfl rfl
    exact ⟨acc1, h, hp, ho, he, h2 _ "Cannot add or update a child row" rfl rfl⟩
  · obtain ⟨acc1, h, hp, ho, he, h1, _, _⟩ := procesarItem_guardado (runtimeAscii 0)
      (entornoGuion 0) {} (.obj { nombre := .str "Ana", puesto := .num 5 })
      (.obj { nombre := .str "Ana", IdEmpleado := .str "EMP-1-abc", puesto := .num 5 })
      [.insertId 7, .hecho] [.insertId 7, .hecho] _ 7 rfl rfl rfl
    exact ⟨acc1, h, hp, ho, he, h1 "puesto.substring is not a function" rfl⟩
  · obtain ⟨acc1, h, hp, ho, he, _, _, h3⟩ := procesarItem_guardado (runtimeAscii 0)
      (entornoGuion 0) {} (.obj { nombre := .str "Ana", puesto := .str "Senior Dev" })
      (.obj { nombre := .str "Ana", IdEmpleado := .str "EMP-1-abc", puesto := .str "Senior Dev" })
      [.insertId 7, .hecho] [.insertId 7, .hecho] _ 7 rfl rfl rfl
    exact ⟨acc1, h, hp, ho, he, h3 _ rfl rfl⟩


/-! ## The statements sent to the store -/

theorem preparar_conRegistro {σ : Type} (env : Entorno σ) (emp : Item) (s : σ)
    (l : List Consulta) :
    prepararItem env.conRegistro emp (s, l) =
      match prepararItem env emp s with
      | .ok (emp1, s1) => .ok (emp1, (s1, l))
      | .error (e, s1) => .error (e, (s1, l)) := by
  cases emp with
  | nul => rfl
  | prim => rfl
  | obj r =>
    by_cases ht : r.IdEmpleado.truthy = true
    · simp [prepararItem, Item.leer, ht]
    · simp only [Bool.not_eq_true] at ht
      by_cases hn : r.nombreSinTexto = true
      · simp [prepararItem, Item.leer, ht, Item.asignarIdEmpleado, Item.enPlantilla, hn,
          Entorno.conRegistro]
      · simp only [Bool.not_eq_true] at hn
        simp [prepararItem, Item.leer, ht, Item.asignarIdEmpleado, Item.enPlantilla, hn,
          Entorno.conRegistro]

theorem idResuelto_conRegistro {σ : Type} (env : Entorno σ) (r : Registro) (s : σ)
    (l : List Consulta) :
    ∃ pre, idResuelto env.conRegistro r (s, l) =
        ((idResuelto env r s).1,
          ((idResuelto env r s).2, l ++ .upsertEmpleado (parametrosRegistro r) :: pre)) ∧
      ∀ q ∈ pre, q.esInsertNomina = false := by
  rcases hu : env.upsertEmpleado (parametrosRegistro r) s with ⟨res, s1⟩
  cases res with
  | error e =>
    exact ⟨[], by simp [idResuelto, Entorno.conRegistro, hu], by simp⟩
  | ok insertId =>
    by_cases h0 : insertId = 0
    · rcases hs : env.selectId r.IdEmpleado s1 with ⟨res2, s2⟩
      refine ⟨[.selectId r.IdEmpleado], ?_, by simp [Consulta.esInsertNomina]⟩
      cases res2 with
      | error e => simp [idResuelto, Entorno.conRegistro, hu, h0, hs]
      | ok rows =>
        cases rows with
        | nil => simp [idResuelto, Entorno.conRegistro, hu, h0, hs]
        | cons i t => simp [idResuelto, Entorno.conRegistro, hu, h0, hs]
    · exact ⟨[], by simp [idResuelto, Entorno.conRegistro, hu, h0], by simp⟩

theorem crearNomina_conRegistro {σ : Type} (rt : Runtime) (env : Entorno σ) (emp : Item)
    (id : Nat) (acc : Contadores) (s : σ) (l : List Consulta) :
    (crearNomina rt env.conRegistro emp id acc (s, l)).2.2 = l ∨
      ∃ c d, (crearNomina rt env.conRegistro emp id acc (s, l)).2.2 =
        l ++ [.insertNomina id c d] := by
  rcases hc : calcularDatosNomina rt (env.ahora s) emp with e | d
  · left
    simp [crearNomina, Entorno.conRegistro, hc]
  · rcases hl : emp.leer "IdEmpleado" (·.IdEmpleado) with e | c
    · left
      simp [crearNomina, Entorno.conRegistro, hc, hl]
    · right
      refine ⟨c, d, ?_⟩
      rcases hq : env.insertNomina id c d s with ⟨res, s1⟩
      cases res <;> simp [crearNomina, Entorno.conRegistro, hc, hl, hq]

theorem crearNomina_log {σ : Type} (rt : Runtime) (env : Entorno σ) {emp : Item}
    {r : Registro} {d : DatosNomina} (id : Nat) (acc : Contadores) (sl : σ × List Consulta)
    (hr : emp.campos = some r) (hc : calcularDatosNomina rt (env.ahora sl.1) emp = .ok d) :
    (crearNomina rt env.conRegistro emp id acc sl).2.2 =
      sl.2 ++ [.insertNomina id r.IdEmpleado d] := by
  rcases hq : env.insertNomina id r.IdEmpleado d sl.1 with ⟨res, s1⟩
  cases res <;> simp [crearNomina, hc, leer_of_campos hr, Entorno.conRegistro, hq]

/-- The statements one iteration sends, whatever the item: an `INSERT INTO Nominas` is
sent only with the internal id that the employee save has resolved, and after the
save's statements. -/
theorem procesarItem_consultas {σ : Type} (rt : Runtime) (env : Entorno σ) (acc : Contadores)
    (emp : Item) (s0 : σ) (id : Nat) (c : JsVal) (d : DatosNomina)
    (hmem : Consulta.insertNomina id c d ∈
      (procesarItem rt env.conRegistro acc emp (s0, [])).2.2) :
    ∃ emp1 s1 r pre, prepararItem env emp s0 = .ok (emp1, s1) ∧ emp1.campos = some r ∧
      (idResuelto env r s1).1 = some id ∧
      (procesarItem rt env.conRegistro acc emp (s0, [])).2.2 =
        .upsertEmpleado (parametrosRegistro r) :: pre ++ [.insertNomina id c d] ∧
      ∀ q ∈ pre, q.esInsertNomina = false := by
  have hprep2 := preparar_conRegistro env emp s0 []
  rcases hprep : prepararItem env emp s0 with ⟨m, s1⟩ | ⟨emp1, s1⟩
  · rw [hprep] at hprep2
    simp [procesarItem, hprep2] at hmem
  rw [hprep] at hprep2
  simp only at hprep2
  obtain ⟨r, hr⟩ := campos_of_preparar env hprep
  obtain ⟨pre, hpre, hno⟩ := idResuelto_conRegistro env r s1 []
  rcases hid : (idResuelto env r s1).1 with _ | id1
  · have hid2 : (idResuelto env.conRegistro r (s1, [])).1 = none := by rw [hpre]; exact hid
    obtain ⟨msg, hmsg⟩ := procesarItem_none rt env.conRegistro acc hprep2 hr hid2
    rw [hmsg, hpre] at hmem
    simp only [List.nil_append, List.mem_cons] at hmem
    rcases hmem with h | h
    · cases h
    · have := hno _ h
      simp [Consulta.esInsertNomina] at this
  · have hid2 : (idResuelto env.conRegistro r (s1, [])).1 = some id1 := by rw [hpre]; exact hid
    have hstep := procesarItem_some rt env.conRegistro acc hprep2 hr hid2
    rw [hstep] at hmem ⊢
    simp only [hpre, List.nil_append] at hmem ⊢
    rcases crearNomina_conRegistro rt env emp1 id1
        { acc with procesados := acc.procesados + 1 } (idResuelto env r s1).2
        (.upsertEmpleado (parametrosRegistro r) :: pre) with h | ⟨c1, d1, h⟩
    · rw [h] at hmem
      simp only [List.mem_cons] at hmem
      rcases hmem with h2 | h2
      · cases h2
      · have := hno _ h2
        simp [Consulta.esInsertNomina] at this
    · rw [h] at hmem ⊢
      simp only [List.cons_append, List.mem_cons, List.mem_append, List.mem_singleton] at hmem
      rcases hmem with h2 | h2 | h2
      · cases h2
      · have := hno _ h2
        simp [Consulta.esInsertNomina] at this
      · rcases h2 with h2 | h2
        · injection h2 with h3 h4 h5
          subst h3 h4 h5
          exact ⟨emp1, s1, r, pre, rfl, hr, hid, rfl, hno⟩
        · cases h2

/-- C10: for every batch of `N` items and every behaviour of the store, the counters of
a summary the handler returns satisfy `nominasCreadas ≤ procesados ≤ N`; the summary
is returned whenever no element is `null` and no `nombre` or `IdEmpleado` is an object
without a string conversion; and in the statements the iteration on any item sends, an
`INSERT INTO Nominas` appears only with the internal id the employee save of that item
has resolved, as the last statement, after the upsert (and the follow-up lookup, when
there is one). -/
theorem postEmployees_invariantes (σ : Type) (rt : Runtime) (env : Entorno σ)
    (emps : List Item) (s : σ) :
    (∀ p nc o errs, (postEmployees rt env (some emps) s).1 = .resumen p nc o errs →
      nc ≤ p ∧ p ≤ emps.length) ∧
    ((∀ e ∈ emps, e.conTexto = true) →
      ∃ p nc o errs, (postEmployees rt env (some emps) s).1 = .resumen p nc o errs) ∧
    (∀ emp ∈ emps, ∀ (acc : Contadores) (s0 : σ) (id : Nat) (c : JsVal) (d : DatosNomina),
      Consulta.insertNomina id c d ∈ (procesarItem rt env.conRegistro acc emp (s0, [])).2.2 →
      ∃ emp1 s1 r pre, prepararItem env emp s0 = .ok (emp1, s1) ∧ emp1.campos = some r ∧
        (idResuelto env r s1).1 = some id ∧
        (procesarItem rt env.conRegistro acc emp (s0, [])).2.2 =
          .upsertEmpleado (parametrosRegistro r) :: pre ++ [.insertNomina id c d] ∧
        ∀ q ∈ pre, q.esInsertNomina = false) := by
  refine ⟨?_, ?_, ?_⟩
  · intro p nc o errs h
    rcases hbs : bucle rt env emps {} s with ⟨res, s1⟩
    cases res with
    | error e => simp [postEmployees, hbs] at h
    | ok acc1 =>
      simp only [postEmployees, hbs, Respuesta.resumen.injEq] at h
      obtain ⟨h1, h2, _, _⟩ := h
      subst h1 h2
      have hs := bucle_seguro rt env emps {} acc1 s (by rw [hbs])
      simp only [Nat.add_zero, Nat.zero_add] at hs
      exact ⟨hs.2.1, hs.2.2⟩
  · intro hct
    obtain ⟨acc1, hb, _⟩ := bucle_invariante rt env emps {} s hct
    rcases hbs : bucle rt env emps {} s with ⟨res, s1⟩
    rw [hbs] at hb
    simp only at hb
    subst hb
    exact ⟨acc1.procesados, acc1.nominasCreadas, acc1.omitidos,
      if acc1.errores.length > 0 then some acc1.errores else none,
      by simp only [postEmployees, hbs]⟩
  · intro emp _ acc s0 id c d hmem
    exact procesarItem_consultas rt env acc emp s0 id c d hmem

theorem postEmployees_invariantes_witness :
    (∃ p nc o errs, (postEmployees (runtimeAscii 0) (entornoGuion 0) (some loteEjemplo)
        guionEjemplo).1 = .resumen p nc o errs ∧ nc ≤ p ∧ p ≤ loteEjemplo.length) ∧
    (∃ emp1 s1 r pre,
      prepararItem (entornoGuion 0) (.obj { nombre := .str "Ana", sueldo := .num 10000 })
        guionEjemplo = .ok (emp1, s1) ∧
      emp1.campos = some r ∧ (idResuelto (entornoGuion 0) r s1).1 = some 1 ∧
      (procesarItem (runtimeAscii 0) (entornoGuion 0).conRegistro {}
          (.obj { nombre := .str "Ana", sueldo := .num 10000 }) (guionEjemplo, [])).2.2 =
        .upsertEmpleado (parametrosRegistro r) :: pre ++
          [.insertNomina 1 (.str "EMP-1-abc") nominaEjemplo] ∧
      ∀ q ∈ pre, q.esInsertNomina = false) := by
  have h := postEmployees_invariantes _ (runtimeAscii 0) (entornoGuion 0) loteEjemplo
    guionEjemplo
  constructor
  · obtain ⟨p, nc, o, errs, hr⟩ := h.2.1 (by decide)
    exact ⟨p, nc, o, errs, hr, h.1 p nc o errs hr⟩
  · refine h.2.2 (.obj { nombre := .str "Ana", sueldo := .num 10000 }) (by decide) {}
      guionEjemplo 1 (.str "EMP-1-abc") nominaEjemplo ?_
    have hc : calcularDatosNomina (runtimeAscii 0) 0 (.obj anaPreparada) = .ok nominaEjemplo := by
      rw [@calcular_eq (runtimeAscii 0) (.obj anaPreparada) anaPreparada "General" 0 rfl rfl]
      simp only [nominaEjemplo, Except.ok.injEq, DatosNomina.mk.injEq]
      refine ⟨by decide, by decide, ?_, ?_, ?_, ?_, by decide, by decide⟩
      · simp only [diasTrabajados, anaPreparada, Runtime.number, numOr, mathRound]
        norm_num
      · simp [anaPreparada, Runtime.number, numOr]
      · simp [anaPreparada, Runtime.number, numOr]
        norm_num
      · simp [anaPreparada, Runtime.number, numOr]
        norm_num
    rw [@procesarItem_some _ (runtimeAscii 0) (entornoGuion 0).conRegistro {}
      (.obj { nombre := .str "Ana", sueldo := .num 10000 }) (.obj anaPreparada)
      (guionEjemplo, []) (guionEjemplo, []) anaPreparada 1 rfl rfl rfl]
    simp only
    rw [@crearNomina_log _ (runtimeAscii 0) (entornoGuion 0) (.obj anaPreparada) anaPreparada
      nominaEjemplo 1 _ _ rfl hc]
    simp [anaPreparada]

/-! ## `POST /api/nominas` -/

/-- C9: for every request to `POST /api/nominas` and every store state, a missing
(falsy) `IdEmpleado` is answered 400 without any statement being sent, and an
`IdEmpleado` for which the lookup finds no employee row is answered 404 with the
`SELECT` as the only statement sent; in both cases no `INSERT INTO Nominas` is issued
and the store is left as the lookup, if any, left it. -/
theorem postNominas_rechazo (σ : Type) (rt : Runtime) (env : Entorno σ) (body : CuerpoNomina)
    (s : σ) :
    (body.IdEmpleado.truthy = false →
      postNominas rt env body s = (.error 400 "IdEmpleado es requerido" none, s) ∧
      (postNominas rt env.conRegistro body (s, [])).2.2 = []) ∧
    (body.IdEmpleado.truthy = true → (env.selectId body.IdEmpleado s).1 = .ok [] →
      postNominas rt env body s =
        (.error 404 ("El empleado con ID " ++ rt.aTexto body.IdEmpleado ++
          " no existe en la base de datos.") none, (env.selectId body.IdEmpleado s).2) ∧
      (postNominas rt env.conRegistro body (s, [])).2.2 = [.selectId body.IdEmpleado]) := by
  constructor
  · intro hf
    simp [postNominas, hf]
  · intro ht hsel
    rcases hq : env.selectId body.IdEmpleado s with ⟨res, s1⟩
    rw [hq] at hsel
    simp only at hsel
    subst hsel
    simp [postNominas, ht, hq, Entorno.conRegistro]

theorem postNominas_rechazo_witness :
    postNominas (runtimeAscii 0) (entornoGuion 0) { Supervisor := .str "Gerente de Área" }
        [.hecho] = (.error 400 "IdEmpleado es requerido" none, [.hecho]) ∧
    postNominas (runtimeAscii 0) (entornoGuion 0) { IdEmpleado := .str "EMP404" }
        [.filas [], .hecho] =
      (.error 404 "El empleado con ID EMP404 no existe en la base de datos." none, [.hecho]) ∧
    (postNominas (runtimeAscii 0) (entornoGuion 0).conRegistro { IdEmpleado := .str "EMP404" }
        ([.filas [], .hecho], [])).2.2 = [.selectId (.str "EMP404")] :=
  ⟨((postNominas_rechazo _ (runtimeAscii 0) (entornoGuion 0)
      { Supervisor := .str "Gerente de Área" } [.hecho]).1 rfl).1,
    ((postNominas_rechazo _ (runtimeAscii 0) (entornoGuion 0) { IdEmpleado := .str "EMP404" }
      [.filas [], .hecho]).2 rfl rfl).1,
    ((postNominas_rechazo _ (runtimeAscii 0) (entornoGuion 0) { IdEmpleado := .str "EMP404" }
      [.filas [], .hecho]).2 rfl rfl).2⟩

/-- West of Greenwich the period is the local month: with the zone six hours behind UTC
and the clock at 2024-03-15 12:00 local time, the dates are the first and the last day
of March 2024. -/
theorem periodo_zona_oeste :
    ∃ d, calcularDatosNomina (runtimeAscii (-360)) 1710525600000 (.obj {}) = .ok d ∧
      d.fechaInicioPeriodo = "2024-03-01" ∧ d.fechaFinPeriodo = "2024-03-31" :=
  ⟨_, rfl, by decide, by decide⟩

end Server
